import Mathlib

/-!
Verification of the promotion-eligibility engine of the pace-backend repository.

The development shallowly embeds the eligibility core of the repository:
`date_parsing.parse_date`, `accounting_date_check.accounting_date_check`,
`board_filter.board_filter` (with its helper checks) and
`roster_processor.roster_processor`, together with the regulatory constant
tables from `constants.py`.  Python `datetime` values are modelled by a
`Datetime` record with lexicographic comparison; `dateutil.relativedelta`
month/year arithmetic is modelled by `addMonths` (month offset with day
clamping, which is exactly what `relativedelta(years=Y, months=M)` does),
and `relativedelta(days=n)` by exact day arithmetic over a proleptic
Gregorian rata-die encoding.  Logging and session persistence are omitted:
they do not feed back into any computed verdict.
-/

/-- Gregorian leap-year test, as in Python's `calendar`/`datetime`. -/
def isLeapYear (y : Int) : Bool :=
  y % 4 == 0 && (y % 100 != 0 || y % 400 == 0)

/-- Number of days of month `m` (1-12) in year `y`. -/
def daysInMonth (y : Int) (m : Nat) : Nat :=
  match m with
  | 2 => if isLeapYear y then 29 else 28
  | 4 => 30
  | 6 => 30
  | 9 => 30
  | 11 => 30
  | _ => 31

/-- Model of a Python `datetime.datetime` value (microseconds are never
used by the engine and are omitted). -/
structure Datetime where
  year : Int
  month : Nat
  day : Nat
  hour : Nat
  minute : Nat
  second : Nat
deriving DecidableEq, Repr

/-- Python `datetime` strict comparison: lexicographic on the fields. -/
def Datetime.ltb (a b : Datetime) : Bool :=
  if a.year ≠ b.year then decide (a.year < b.year)
  else if a.month ≠ b.month then decide (a.month < b.month)
  else if a.day ≠ b.day then decide (a.day < b.day)
  else if a.hour ≠ b.hour then decide (a.hour < b.hour)
  else if a.minute ≠ b.minute then decide (a.minute < b.minute)
  else decide (a.second < b.second)

/-- Python `datetime` non-strict comparison (total order, so `a <= b`
is the negation of `b < a`). -/
def Datetime.leb (a b : Datetime) : Bool :=
  !(Datetime.ltb b a)

/-- `dt + relativedelta(years=Y, months=M)` adds the total month offset
`12*Y + M` to the (year, month) pair and clamps the day to the length of
the resulting month; this function is that operation for an arbitrary
integer month offset `n` (negative `n` models subtraction). -/
def addMonths (dt : Datetime) (n : Int) : Datetime :=
  let total : Int := (dt.month : Int) - 1 + n
  let y : Int := dt.year + total.ediv 12
  let m : Nat := (total.emod 12).toNat + 1
  let d : Nat := min dt.day (daysInMonth y m)
  ⟨y, m, d, dt.hour, dt.minute, dt.second⟩

/-- Rata-die day number of a Gregorian calendar date (days_from_civil,
H. Hinnant's algorithm, day 0 = 1970-01-01). -/
def daysFromCivil (y0 : Int) (m d : Nat) : Int :=
  let y : Int := if m ≤ 2 then y0 - 1 else y0
  let era : Int := y.fdiv 400
  let yoe : Int := y - era * 400
  let mp : Int := (m : Int) + (if 2 < m then -3 else 9)
  let doy : Int := (153 * mp + 2).ediv 5 + (d : Int) - 1
  let doe : Int := yoe * 365 + yoe.ediv 4 - yoe.ediv 100 + doy
  era * 146097 + doe - 719468

/-- Inverse of `daysFromCivil` (civil_from_days). -/
def civilFromDays (z0 : Int) : Int × Nat × Nat :=
  let z : Int := z0 + 719468
  let era : Int := z.fdiv 146097
  let doe : Int := z - era * 146097
  let yoe : Int := (doe - doe.ediv 1460 + doe.ediv 36524 - doe.ediv 146096).ediv 365
  let y : Int := yoe + era * 400
  let doy : Int := doe - (365 * yoe + yoe.ediv 4 - yoe.ediv 100)
  let mp : Int := (5 * doy + 2).ediv 153
  let d : Int := doy - (153 * mp + 2).ediv 5 + 1
  let m : Int := mp + (if mp < 10 then 3 else -9)
  (y + (if m ≤ 2 then 1 else 0), m.toNat, d.toNat)

/-- `dt - relativedelta(days=n)`: exact day arithmetic, keeping the time
fields (negative `n` adds days). -/
def subDays (dt : Datetime) (n : Int) : Datetime :=
  match civilFromDays (daysFromCivil dt.year dt.month dt.day - n) with
  | (y, m, d) => ⟨y, m, d, dt.hour, dt.minute, dt.second⟩

/-- Split a character list on the dash character, as `str.split('-')`. -/
def splitChars : List Char → List (List Char)
  | [] => [[]]
  | c :: rest =>
    match splitChars rest with
    | [] => [[c]]
    | g :: gs => if c = '-' then [] :: g :: gs else (c :: g) :: gs

/-- Value of a decimal digit character. -/
def digitVal (c : Char) : Option Nat :=
  if c.isDigit then some (c.toNat - 48) else none

/-- Accumulating decimal parser over characters. -/
def parseNatAux : List Char → Nat → Option Nat
  | [], acc => some acc
  | c :: rest, acc =>
    match digitVal c with
    | some v => parseNatAux rest (acc * 10 + v)
    | none => none

/-- Parse a non-empty all-digit character list as a natural number. -/
def parseNatChars (cs : List Char) : Option Nat :=
  match cs with
  | [] => none
  | _ => parseNatAux cs 0

/-- Month number of a three-letter English month abbreviation
(case-insensitive, as `%b` in `strptime` and pandas inference). -/
def monthNum (cs : List Char) : Option Nat :=
  match cs.map Char.toUpper with
  | ['J', 'A', 'N'] => some 1
  | ['F', 'E', 'B'] => some 2
  | ['M', 'A', 'R'] => some 3
  | ['A', 'P', 'R'] => some 4
  | ['M', 'A', 'Y'] => some 5
  | ['J', 'U', 'N'] => some 6
  | ['J', 'U', 'L'] => some 7
  | ['A', 'U', 'G'] => some 8
  | ['S', 'E', 'P'] => some 9
  | ['O', 'C', 'T'] => some 10
  | ['N', 'O', 'V'] => some 11
  | ['D', 'E', 'C'] => some 12
  | _ => none

/-- Parse a `"DD-MON"` month-day string (the shape stored in the `SCODS`,
`TIG` and `MDOS` tables) into a (day, month) pair. -/
def parseDayMonth (md : String) : Option (Nat × Nat) :=
  match splitChars md.data with
  | [dcs, mcs] =>
    match parseNatChars dcs, monthNum mcs with
    | some d, some m => some (d, m)
    | _, _ => none
  | _ => none

/-- `datetime.strptime(f"{md}-{year}", "%d-%b-%Y")`: the source always
builds the string from a `"DD-MON"` table entry and a year; the embedding
fuses the f-string with the parse and takes the year directly. -/
def strptimeMD (md : String) (y : Int) : Option Datetime :=
  match parseDayMonth md with
  | some (d, m) =>
    if 1 ≤ d ∧ d ≤ daysInMonth y m then some ⟨y, m, d, 0, 0, 0⟩ else none
  | none => none

/-- Parse a full `"DD-Mon-YYYY"` date string.  `pd.to_datetime`'s
permissive inference is modelled on the repository's canonical
`%d-%b-%Y` date format; strings in other formats are treated as
unparseable. -/
def parseDMYString (s : String) : Option Datetime :=
  match splitChars s.data with
  | [dcs, mcs, ycs] =>
    match parseNatChars dcs, monthNum mcs, parseNatChars ycs with
    | some d, some m, some y =>
      if 1 ≤ d ∧ d ≤ daysInMonth (y : Int) m then some ⟨(y : Int), m, d, 0, 0, 0⟩
      else none
    | _, _, _ => none
  | _ => none

/-- Drop leading and trailing whitespace, as Python `str.strip()`. -/
def trimChars (cs : List Char) : List Char :=
  ((cs.dropWhile (·.isWhitespace)).reverse.dropWhile (·.isWhitespace)).reverse

/-- Python `str.strip()`. -/
def pyStrip (s : String) : String :=
  String.mk (trimChars s.data)

/-- Model of the heterogeneous Python values flowing into the engine:
`None`, a pandas `NaN`, a string, a numeric spreadsheet serial, or an
already-structured `datetime`/`Timestamp` value.  (Numeric serials are
modelled integrally: spreadsheet date cells hold whole days.) -/
inductive PyValue where
  | pynone
  | nan
  | str (s : String)
  | num (n : Int)
  | dt (d : Datetime)
deriving DecidableEq, Repr

/-- The spreadsheet serial epoch used by `parse_date`
(`origin="1899-12-30"`). -/
def excelSerialToDate (n : Int) : Datetime :=
  match civilFromDays (daysFromCivil 1899 12 30 + n) with
  | (y, m, d) => ⟨y, m, d, 0, 0, 0⟩

/-- Embedding of `date_parsing.parse_date` (src/date_parsing.py, lines
5-36) on the scalar, Timestamp-representable fragment of its domain, the
one on which the rest of the engine operates: `NaN`/`None`/empty string
give `None`; structured datetimes pass through; numbers in the plausible
serial range `1..2958465` are days since the 1899-12-30 epoch; strings
are stripped and parsed; anything else (or any parse failure) gives
`None`.  The `error_log` side channel only accumulates diagnostics and
is omitted.  The source function also has reachable exception paths
(an out-of-bounds structured datetime, an array-like argument); those
are captured by the refined `parse_date_checked` below, which agrees
with this function on the fragment (`parse_date_checked_agrees`). -/
def parse_date (value : PyValue) : Option Datetime :=
  match value with
  | .pynone => none
  | .nan => none
  | .dt d => some d
  | .num n => if 1 ≤ n ∧ n ≤ 2958465 then some (excelSerialToDate n) else none
  | .str s => if s = "" then none else parseDMYString (pyStrip s)

/-- The smallest whole-second datetime representable as a pandas
`Timestamp` (`Timestamp.min` is 1677-09-21 00:12:43.145224193, so a
whole-second datetime is representable exactly when it is at least
00:12:44 of that day). -/
def pandasTimestampMin : Datetime := ⟨1677, 9, 21, 0, 12, 44⟩

/-- The largest whole-second datetime representable as a pandas
`Timestamp` (`Timestamp.max` is 2262-04-11 23:47:16.854775807). -/
def pandasTimestampMax : Datetime := ⟨2262, 4, 11, 23, 47, 16⟩

/-- Whether a whole-second datetime is representable as a pandas
`Timestamp`; outside this range `pd.to_datetime` raises
`OutOfBoundsDatetime`. -/
def inTimestampBounds (d : Datetime) : Bool :=
  pandasTimestampMin.leb d && d.leb pandasTimestampMax

/-- The full argument shapes of `parse_date`: a scalar value, or an
array-like value of `n` elements (for which `pd.isna` returns an array,
so the `or` chain of the first line forces its truth value). -/
inductive PyInput where
  | scalar (v : PyValue)
  | arraylike (n : Nat)
deriving DecidableEq, Repr

/-- Refined embedding of `date_parsing.parse_date` including its
reachable exception paths.  An array-like argument of length other than
one raises `ValueError` at `pd.isna(value) or ...` (the truth value of
the returned array is ambiguous); a one-element array-like is falsy or
truthy pointwise, matches none of the scalar branches, and falls
through to `None`.  A structured datetime is passed to the unguarded
`pd.to_datetime(value).to_pydatetime()`, which raises
`OutOfBoundsDatetime` when the value lies outside the `Timestamp`
range.  The numeric-serial and string branches run inside
`try`/`except`, so an out-of-range result there is swallowed and falls
through to `None`. -/
def parse_date_checked : PyInput → Except String (Option Datetime)
  | PyInput.arraylike n =>
    if n = 1 then Except.ok none
    else Except.error "ValueError: The truth value of an array with more than one element is ambiguous"
  | PyInput.scalar v =>
    match v with
    | PyValue.pynone => Except.ok none
    | PyValue.nan => Except.ok none
    | PyValue.dt d =>
      if inTimestampBounds d = true then Except.ok (some d)
      else Except.error "OutOfBoundsDatetime: Out of bounds nanosecond timestamp"
    | PyValue.num n =>
      if 1 ≤ n ∧ n ≤ 2958465 then
        Except.ok (if inTimestampBounds (excelSerialToDate n) = true then
          some (excelSerialToDate n) else none)
      else Except.ok none
    | PyValue.str s =>
      if s = "" then Except.ok none
      else
        Except.ok (match parseDMYString (pyStrip s) with
          | some d => if inTimestampBounds d = true then some d else none
          | none => none)

/-- Python `int(string)`: optional surrounding whitespace, optional sign,
then decimal digits. -/
def pyIntOfString (s : String) : Option Int :=
  match trimChars s.data with
  | '-' :: rest => (parseNatChars rest).map (fun n => -(n : Int))
  | '+' :: rest => (parseNatChars rest).map (fun n => (n : Int))
  | cs => (parseNatChars cs).map (fun n => (n : Int))

/-- UIF-code normalization from `board_filter` step 8 (src/board_filter.py,
lines 284-293): `NaN`/`None`/empty string give 0, otherwise `int(value)`
with any `TypeError`/`ValueError` caught and converted to 0 (so an
unparseable string, or a non-numeric value such as a datetime, gives 0). -/
def normalize_uif : PyValue → Int
  | .pynone => 0
  | .nan => 0
  | .num n => n
  | .dt _ => 0
  | .str s => if s = "" then 0 else (pyIntOfString s).getD 0

/-- Promotion-cycle closeout dates (`SCODS` in src/constants.py). -/
def SCODS : String → Option String
  | "AB" => some "31-MAR"
  | "AMN" => some "31-MAR"
  | "A1C" => some "31-MAR"
  | "SRA" => some "31-MAR"
  | "SSG" => some "31-JAN"
  | "TSG" => some "30-NOV"
  | "MSG" => some "30-SEP"
  | "SMS" => some "31-JUL"
  | _ => none

/-- Time-in-grade base month/day (`TIG` in src/constants.py). -/
def TIG : String → Option String
  | "AB" => some "01-FEB"
  | "AMN" => some "01-FEB"
  | "A1C" => some "01-FEB"
  | "SRA" => some "01-FEB"
  | "SSG" => some "01-AUG"
  | "TSG" => some "01-JUL"
  | "MSG" => some "01-JUL"
  | "SMS" => some "01-MAR"
  | _ => none

/-- Months of time in grade required (`TIG_MONTHS_REQUIRED`). -/
def TIG_MONTHS_REQUIRED : String → Option Nat
  | "AB" => some 6
  | "AMN" => some 6
  | "A1C" => some 10
  | "SRA" => some 6
  | "SSG" => some 23
  | "TSG" => some 24
  | "MSG" => some 20
  | "SMS" => some 21
  | _ => none

/-- Years of time in service required (`TAFMSD` table; the fractional
entries are exact binary fractions, so rationals model the Python floats
faithfully; the values are built with `mkRat` so that they evaluate). -/
def TAFMSD : String → Option ℚ
  | "AB" => some (mkRat 1 4)
  | "AMN" => some (mkRat 1 2)
  | "A1C" => some (mkRat 5 4)
  | "SRA" => some (mkRat 3 1)
  | "SSG" => some (mkRat 5 1)
  | "TSG" => some (mkRat 8 1)
  | "MSG" => some (mkRat 11 1)
  | "SMS" => some (mkRat 14 1)
  | _ => none

/-- Mandatory-separation base month/day (`MDOS`). -/
def MDOS : String → Option String
  | "AB" => some "01-SEP"
  | "AMN" => some "01-SEP"
  | "A1C" => some "01-SEP"
  | "SRA" => some "01-SEP"
  | "SSG" => some "01-AUG"
  | "TSG" => some "01-AUG"
  | "MSG" => some "01-APR"
  | "SMS" => some "01-JAN"
  | _ => none

/-- Standard higher-tenure years (`MAIN_HIGHER_TENURE`). -/
def MAIN_HIGHER_TENURE : String → Option ℚ
  | "AB" => some (mkRat 6 1)
  | "AMN" => some (mkRat 6 1)
  | "A1C" => some (mkRat 8 1)
  | "SRA" => some (mkRat 10 1)
  | "SSG" => some (mkRat 20 1)
  | "TSG" => some (mkRat 22 1)
  | "MSG" => some (mkRat 24 1)
  | "SMS" => some (mkRat 26 1)
  | _ => none

/-- Exception higher-tenure years (`EXCEPTION_HIGHER_TENURE`). -/
def EXCEPTION_HIGHER_TENURE : String → Option Int
  | "AB" => some 8
  | "AMN" => some 8
  | "A1C" => some 10
  | "SRA" => some 12
  | "SSG" => some 22
  | "TSG" => some 24
  | "MSG" => some 26
  | "SMS" => some 28
  | _ => none

/-- Required skill-level digit by grade (`PAFSC_MAP`; the table stores
one-character strings and the source compares single characters, so the
embedding stores the character). -/
def PAFSC_MAP : String → Option Char
  | "AB" => some '3'
  | "AMN" => some '3'
  | "A1C" => some '3'
  | "SRA" => some '5'
  | "SSG" => some '7'
  | "TSG" => some '7'
  | "MSG" => some '7'
  | "SMS" => some '9'
  | _ => none

/-- Disqualifying reenlistment-eligibility codes (`RE_CODES`). -/
def RE_CODES : String → Option String
  | "2A" => some "AFPC Denied Reenlistment"
  | "2B" => some "Discharged, General."
  | "2C" => some "Involuntary separation."
  | "2F" => some "Undergoing Rehab"
  | "2G" => some "Substance Abuse, Drugs"
  | "2H" => some "Substance Abuse, Alcohol"
  | "2J" => some "Under investigation"
  | "2K" => some "Involuntary Separation."
  | "2M" => some "Sentenced under UCMJ"
  | "2P" => some "AWOL; deserter."
  | "2W" => some "Retired and recalled to AD"
  | "2X" => some "Not selected for Reenlistment."
  | "4H" => some "Article 15."
  | "4I" => some "Control Roster."
  | "4L" => some "Separated, Commissioning program."
  | "4M" => some "Breach of enlistment."
  | "4N" => some "Convicted, Civil Court."
  | _ => none

/-- Start of the higher-tenure extension window (`hyt_start_date`,
`datetime(2023, 12, 8)`). -/
def hyt_start_date : Datetime := ⟨2023, 12, 8, 0, 0, 0⟩

/-- End of the higher-tenure extension window (`hyt_end_date`,
`datetime(2026, 9, 30)`). -/
def hyt_end_date : Datetime := ⟨2026, 9, 30, 0, 0, 0⟩

/-- Offset, in days, from the closeout date back to the accounting date
(`ACCOUNTING_DATE_OFFSET_DAYS`). -/
def ACCOUNTING_DATE_OFFSET_DAYS : Nat := 119

/-- Officer ranks excluded from enlisted processing (`OFFICER_RANKS`). -/
def OFFICER_RANKS : List String :=
  ["2LT", "1LT", "CPT", "MAJ", "LTC", "COL", "BG", "MG", "LTG", "GEN"]

/-- Enlisted ranks accepted for processing (`ENLISTED_RANKS`). -/
def ENLISTED_RANKS : List String :=
  ["AB", "AMN", "A1C", "SRA", "SSG", "TSG", "MSG", "SMS", "CMS"]

/-- Next grade of each promotion cycle (`PROMOTIONAL_MAP`). -/
def PROMOTIONAL_MAP : String → Option String
  | "SRA" => some "SSG"
  | "SSG" => some "TSG"
  | "TSG" => some "MSG"
  | "MSG" => some "SMS"
  | "SMS" => some "CMS"
  | _ => none

/-- Embedding of `btz_elgibility_check` (src/board_filter.py, lines
56-67).  The cutoff is `strptime(f"01-Feb-{year}")` and the closeout is
`strptime(f"{SCODS['SRA']}-{year}")`, i.e. 31-Mar of the cycle year. -/
def btz_elgibility_check (date_of_rank : PyValue) (year : Nat) : Bool :=
  match parse_date date_of_rank with
  | none => false
  | some dor =>
    let cutoff_date : Datetime := ⟨(year : Int), 2, 1, 0, 0, 0⟩
    let btz_date_of_rank := addMonths dor 22
    let scod_date : Datetime := ⟨(year : Int), 3, 31, 0, 0, 0⟩
    if btz_date_of_rank.leb cutoff_date then true
    else if cutoff_date.ltb btz_date_of_rank && btz_date_of_rank.leb scod_date then true
    else false

/-- Embedding of `check_a1c_eligbility` (src/board_filter.py, lines
69-80); `some true` / `some false` / `none` are Python's
`True` / `False` / `None` (the ambiguous outcome). -/
def check_a1c_eligbility (date_of_rank : PyValue) (year : Nat) : Option Bool :=
  match parse_date date_of_rank with
  | none => some false
  | some dor =>
    let cutoff_date : Datetime := ⟨(year : Int), 2, 1, 0, 0, 0⟩
    let scod_date : Datetime := ⟨(year : Int), 3, 31, 0, 0, 0⟩
    let standard := addMonths dor 28
    if standard.leb cutoff_date then some true
    else if cutoff_date.ltb standard && standard.leb scod_date then some false
    else none

/-- Embedding of `three_year_tafmsd_check` (src/board_filter.py, lines
82-88): `true` (member ineligible) when TAFMSD + 36 months is on or
before the closeout date. -/
def three_year_tafmsd_check (scod_as_datetime : Datetime) (tafmsd : PyValue) : Bool :=
  match parse_date tafmsd with
  | none => false
  | some t => (addMonths t 36).leb scod_as_datetime

/-- The `8`/`9` special-duty prefix test opening `pafsc_check`
(`if pafsc and ... pafsc[0] in ('8', '9')`; an empty string is falsy). -/
def pafscSpecial : Option String → Bool
  | none => false
  | some s =>
    match s.data with
    | c :: _ => c == '8' || c == '9'
    | [] => false

/-- One iteration of the `pafsc_check` loop: a code of length at least 5
is inspected at index 4 when its first character is alphabetic or a dash
and at index 3 otherwise, and meets the requirement when the character
there is at least the required digit. -/
def afscMeets (required : Char) : Option String → Bool
  | none => false
  | some a =>
    if a.data.length ≥ 5 then
      let first := a.data.headD ' '
      let idx := if first.isAlpha || first == '-' then 4 else 3
      match a.data.get? idx with
      | some c => required ≤ c
      | none => false
    else false

/-- Embedding of `pafsc_check` (src/board_filter.py, lines 13-54):
`none` for a special (8/9-prefixed) primary code, otherwise whether any
of the four codes meets the grade's required skill level.  The source
returns at the first satisfying code of the loop; with no side effects
this is the disjunction. -/
def pafsc_check (grade : String) (pafsc two_afsc three_afsc four_afsc : Option String) :
    Option Bool :=
  if pafscSpecial pafsc then none
  else
    match PAFSC_MAP grade with
    | none => some false
    | some required =>
      if afscMeets required pafsc || afscMeets required two_afsc ||
          afscMeets required three_afsc || afscMeets required four_afsc then some true
      else some false

/-- The verdicts of `board_filter`: `True`, `(False, reason)`,
`('discrepancy', reason)`, `(True, 'btz')` and `None` respectively. -/
inductive Verdict where
  | eligible
  | ineligible (reason : String)
  | discrepancy (reason : String)
  | eligibleBtz
  | notApplicable
deriving DecidableEq, Repr

/-- The month-name component of a `"DD-MON"` table entry,
`scod_month_day.split('-')[1]`. -/
def scodMonthName (md : String) : String :=
  String.mk ((splitChars md.data).getD 1 [])

/-- SCOD computation of `board_filter` step 2 (lines 170-181): closeout
month/day from `SCODS`, with year `year + 1` when the closeout month is
in the first quarter and `year` otherwise. -/
def scod_as_datetime (grade : String) (year : Nat) : Option Datetime :=
  match SCODS grade with
  | none => none
  | some md =>
    strptimeMD md
      (if scodMonthName md = "JAN" ∨ scodMonthName md = "FEB" ∨ scodMonthName md = "MAR" then
        (year : Int) + 1
      else (year : Int))

/-- TIG eligibility cutoff of step 2 (lines 184-186): the grade's TIG
base month/day in `year + 1`, minus the required months. -/
def tig_eligibility_month (grade : String) (year : Nat) : Option Datetime :=
  match TIG grade, TIG_MONTHS_REQUIRED grade with
  | some base, some months =>
    (strptimeMD base ((year : Int) + 1)).map (fun d => addMonths d (-(months : Int)))
  | _, _ => none

/-- Total month offset of the TIS requirement (lines 189-197): for
fractional required years below 1 the source uses
`relativedelta(months=int(years * 12))`, otherwise
`relativedelta(years=int(years), months=int((years % 1) * 12))`; both
are a total month offset. -/
def tafmsdMonths (grade : String) : Option Int :=
  (TAFMSD grade).map (fun q =>
    if q < 1 then (q * 12).floor else 12 * q.floor + ((q - q.floor) * 12).floor)

/-- TIS required-by date of step 2: TIG selection month minus the
required years of service. -/
def tafmsd_required_date (grade : String) (year : Nat) : Option Datetime :=
  match TIG grade, tafmsdMonths grade with
  | some base, some months => (strptimeMD base ((year : Int) + 1)).map (fun d => addMonths d (-months))
  | _, _ => none

/-- Total month offset of the standard higher-tenure computation (lines
200-207), with the same fractional-year branching as the TIS one. -/
def hytMonths (grade : String) : Option Int :=
  (MAIN_HIGHER_TENURE grade).map (fun q =>
    if q < 1 then (q * 12).floor else 12 * q.floor + ((q - q.floor) * 12).floor)

/-- Standard higher-tenure date: TAFMSD plus the grade's standard
higher-tenure years. -/
def hyt_date_std (grade : String) (tafmsd : Datetime) : Option Datetime :=
  (hytMonths grade).map (fun m => addMonths tafmsd m)

/-- MDOS of step 2 (lines 210-211): the grade's MDOS base month/day in
`year + 1`. -/
def mdos_date (grade : String) (year : Nat) : Option Datetime :=
  match MDOS grade with
  | some base => strptimeMD base ((year : Int) + 1)
  | none => none

/-- All key dates of `board_filter` step 2, in source order
(SCOD, TIG cutoff, TIS required-by, standard HYT, MDOS); `none` when the
grade is missing from a regulatory table, which in the source raises
inside the `try` block. -/
def keyDates (grade : String) (year : Nat) (tafmsd : Datetime) :
    Option (Datetime × Datetime × Datetime × Datetime × Datetime) :=
  match scod_as_datetime grade year, tig_eligibility_month grade year,
      tafmsd_required_date grade year, hyt_date_std grade tafmsd, mdos_date grade year with
  | some scod, some tigm, some tafreq, some hyt0, some mdos =>
    some (scod, tigm, tafreq, hyt0, mdos)
  | _, _, _, _, _ => none

/-- Python `str()` of the numeric table literals appearing in reason
strings: integers print without a decimal point, the fractional float
literals of the `TAFMSD` table print with their exact one- or two-digit
decimal expansion. -/
def pyNumStr (q : ℚ) : String :=
  if q.den = 1 then toString q.num
  else
    let ip := q.floor
    let frac := q - (ip : ℚ)
    if (frac * 10).den = 1 then toString ip ++ "." ++ toString (frac * 10).num
    else toString ip ++ "." ++ toString (frac * 100).num

/-- Reason string of the failed TIG check,
`f'TIG: < {TIG_MONTHS_REQUIRED.get(grade)} months'`. -/
def tigReason (grade : String) : String :=
  "TIG: < " ++ (match TIG_MONTHS_REQUIRED grade with
    | some n => toString n
    | none => "None") ++ " months"

/-- Reason string of the failed TIS check,
`f'TIS < {TAFMSD.get(grade)} years'`. -/
def tisReason (grade : String) : String :=
  "TIS < " ++ (match TAFMSD grade with
    | some q => pyNumStr q
    | none => "None") ++ " years"

/-- The exception higher-tenure years,
`EXCEPTION_HIGHER_TENURE.get(grade, MAIN_HIGHER_TENURE.get(grade))`.
Both tables have exactly the grades of `SCODS`, and the exception path
is only reachable after the step-2 lookups succeeded, so the fallback is
never consulted there; it is modelled by the floor of the standard
years. -/
def exception_hyt_years (grade : String) : Int :=
  match EXCEPTION_HIGHER_TENURE grade with
  | some e => e
  | none => ((MAIN_HIGHER_TENURE grade).map Rat.floor).getD 0

/-- The possibly recomputed higher-tenure date of step 7 (lines
269-273): when the standard HYT date falls strictly between
`hyt_start_date` and `hyt_end_date`, HYT is recomputed as TAFMSD plus
the grade's exception years (`relativedelta(years=e)`, a 12·e month
offset). -/
def hytAdjust (grade : String) (tafmsd hyt0 : Datetime) : Datetime :=
  if hyt_start_date.ltb hyt0 = true ∧ hyt0.ltb hyt_end_date = true then
    addMonths tafmsd (12 * exception_hyt_years grade)
  else hyt0

/-- `uif_disposition_date and uif_disposition_date < scod`: a present
disposition date strictly before the SCOD (`None` is falsy). -/
def dispoBefore (dispo : Option Datetime) (scod : Datetime) : Bool :=
  match dispo with
  | some dd => dd.ltb scod
  | none => false

/-- The short-circuit of the UIF check of step 8 (lines 295-299):
`some` discrepancy verdict when the normalized code exceeds 1 and a
disposition date is present and strictly before the SCOD, `none` when
the check passes. -/
def uif_flag (uif : Int) (dispo : Option Datetime) (scod : Datetime) : Option Verdict :=
  if 1 < uif ∧ dispoBefore dispo scod = true then
    some (Verdict.discrepancy ("UIF code: " ++ toString uif))
  else none

/-- Step 11 (lines 334-341): BTZ-eligible when the A1C branch recorded a
successful BTZ check, plain eligible otherwise. -/
def board_step11_final (btz : Option Bool) : Verdict :=
  if btz = some true then Verdict.eligibleBtz else Verdict.eligible

/-- Step 10 (lines 318-331): PAFSC skill-level check, skipped for SMS
and MSG; a `False` result is a discrepancy (a `None` result, the special
8/9 prefix, passes). -/
def board_step10_pafsc (grade : String) (p1 p2 p3 p4 : Option String)
    (btz : Option Bool) : Verdict :=
  if grade = "SMS" ∨ grade = "MSG" then board_step11_final btz
  else if pafsc_check grade p1 p2 p3 p4 = some false then
    Verdict.discrepancy "Insufficient PAFSC skill level."
  else board_step11_final btz

/-- Step 9 (lines 302-316): RE-status check; a present, non-empty code
found in `RE_CODES` is a discrepancy with the code's description. -/
def board_step9_re (grade : String) (re : Option String) (p1 p2 p3 p4 : Option String)
    (btz : Option Bool) : Verdict :=
  match re with
  | some rs =>
    if rs ≠ "" ∧ (RE_CODES rs).isSome then
      Verdict.discrepancy (rs ++ ": " ++ (RE_CODES rs).getD "")
    else board_step10_pafsc grade p1 p2 p3 p4 btz
  | none => board_step10_pafsc grade p1 p2 p3 p4 btz

/-- Step 8 (lines 281-300): UIF check on the normalized code. -/
def board_step8_uif (grade : String) (scod : Datetime) (uifv : PyValue)
    (dispo : Option Datetime) (re : Option String) (p1 p2 p3 p4 : Option String)
    (btz : Option Bool) : Verdict :=
  match uif_flag (normalize_uif uifv) dispo scod with
  | some v => v
  | none => board_step9_re grade re p1 p2 p3 p4 btz

/-- Step 7 (lines 267-279): higher-tenure check with the extension
window; fails when the (possibly recomputed) HYT date is strictly before
the MDOS. -/
def board_step7_hyt (grade : String) (taf scod hyt0 mdos : Datetime) (uifv : PyValue)
    (dispo : Option Datetime) (re : Option String) (p1 p2 p3 p4 : Option String)
    (btz : Option Bool) : Verdict :=
  if (hytAdjust grade taf hyt0).ltb mdos = true then Verdict.ineligible "Higher tenure."
  else board_step8_uif grade scod uifv dispo re p1 p2 p3 p4 btz

/-- Step 6 (lines 258-265): TIS check; fails when the TAFMSD is strictly
after the required-by date. -/
def board_step6_tis (grade : String) (taf scod tafreq hyt0 mdos : Datetime)
    (uifv : PyValue) (dispo : Option Datetime) (re : Option String)
    (p1 p2 p3 p4 : Option String) (btz : Option Bool) : Verdict :=
  if tafreq.ltb taf = true then Verdict.ineligible (tisReason grade)
  else board_step7_hyt grade taf scod hyt0 mdos uifv dispo re p1 p2 p3 p4 btz

/-- Step 5 (lines 249-256): TIG check; the date of rank is already known
to be present here (the required-field gate ran first), so the check is
whether it is strictly after the TIG cutoff. -/
def board_step5_tig (grade : String) (dor taf scod tigm tafreq hyt0 mdos : Datetime)
    (uifv : PyValue) (dispo : Option Datetime) (re : Option String)
    (p1 p2 p3 p4 : Option String) (btz : Option Bool) : Verdict :=
  if tigm.ltb dor = true then Verdict.ineligible (tigReason grade)
  else board_step6_tis grade taf scod tafreq hyt0 mdos uifv dispo re p1 p2 p3 p4 btz

/-- Step 4 (lines 237-247): the 36-month TIS cap for the three most
junior grades. -/
def board_step4_tis36 (grade : String) (dor taf scod tigm tafreq hyt0 mdos : Datetime)
    (uifv : PyValue) (dispo : Option Datetime) (re : Option String)
    (p1 p2 p3 p4 : Option String) (btz : Option Bool) : Verdict :=
  if (grade = "A1C" ∨ grade = "AMN" ∨ grade = "AB") ∧
      three_year_tafmsd_check scod (PyValue.dt taf) = true then
    Verdict.ineligible "SRA 2 Feb - 31 Mar or 3yr TIS"
  else board_step5_tig grade dor taf scod tigm tafreq hyt0 mdos uifv dispo re p1 p2 p3 p4 btz

/-- Step 3 (lines 216-235): the A1C special case.  On the ambiguous
outcome the BTZ sub-check runs; its failure excludes the member
(`None`), its success is remembered for step 11. -/
def board_step3_a1c (grade : String) (year : Nat) (dor taf scod tigm tafreq hyt0 mdos : Datetime)
    (uifv : PyValue) (dispo : Option Datetime) (re : Option String)
    (p1 p2 p3 p4 : Option String) : Verdict :=
  if grade = "A1C" then
    match check_a1c_eligbility (PyValue.dt dor) year with
    | none =>
      let b := btz_elgibility_check (PyValue.dt dor) year
      if b = true then
        board_step4_tis36 grade dor taf scod tigm tafreq hyt0 mdos uifv dispo re p1 p2 p3 p4 (some b)
      else Verdict.notApplicable
    | some false => Verdict.ineligible "Failed A1C Check."
    | some true =>
      board_step4_tis36 grade dor taf scod tigm tafreq hyt0 mdos uifv dispo re p1 p2 p3 p4 none
  else board_step4_tis36 grade dor taf scod tigm tafreq hyt0 mdos uifv dispo re p1 p2 p3 p4 none

/-- The body of `board_filter` inside its `try` (lines 132-341): parse
the three dates, apply the required-field gate, derive the key dates and
run the rule chain.  A grade missing from the regulatory tables makes
the step-2 computation raise (`None.split(...)` or
`strptime(None...)`), modelled as the error case. -/
def boardFilterBody (grade : String) (year : Nat)
    (date_of_rank uif_code uif_disposition_date tafmsd : PyValue)
    (re_status pafsc two_afsc three_afsc four_afsc : Option String) :
    Except String Verdict :=
  let dispo := parse_date uif_disposition_date
  match parse_date date_of_rank, parse_date tafmsd with
  | some dor, some taf =>
    match keyDates grade year taf with
    | some (scod, tigm, tafreq, hyt0, mdos) =>
      Except.ok (board_step3_a1c grade year dor taf scod tigm tafreq hyt0 mdos
        uif_code dispo re_status pafsc two_afsc three_afsc four_afsc)
    | none => Except.error "NoneType object has no attribute split"
  | _, _ => Except.ok (Verdict.ineligible "Required date missing or unreadable")

/-- Embedding of `board_filter` (src/board_filter.py, lines 90-346): the
whole evaluation runs inside `try`, and any exception is converted to
the ineligible verdict with a processing-error reason. -/
def board_filter (grade : String) (year : Nat)
    (date_of_rank uif_code uif_disposition_date tafmsd : PyValue)
    (re_status pafsc two_afsc three_afsc four_afsc : Option String) : Verdict :=
  match boardFilterBody grade year date_of_rank uif_code uif_disposition_date tafmsd
      re_status pafsc two_afsc three_afsc four_afsc with
  | Except.ok v => v
  | Except.error e => Verdict.ineligible ("Processing error: " ++ e)

/-- Embedding of `accounting_date_check`
(src/accounting_date_check.py, lines 7-60): absent arrival date fails;
otherwise the grade's closeout date (first-quarter months use
`year + 1`) minus `ACCOUNTING_DATE_OFFSET_DAYS` days, snapped to the 3rd
of that month at 23:59:59, and the member fails exactly when the arrival
date is strictly after it.  A grade missing from `SCODS` raises
(`None.split`), modelled as the error case. -/
def accounting_date_check (date_arrived_station : Option Datetime) (grade : String)
    (year : Nat) : Except String Bool :=
  match date_arrived_station with
  | none => Except.ok false
  | some das =>
    match SCODS grade with
    | none => Except.error "NoneType object has no attribute split"
    | some md =>
      match strptimeMD md
          (if scodMonthName md = "JAN" ∨ scodMonthName md = "FEB" ∨ scodMonthName md = "MAR" then
            (year : Int) + 1
          else (year : Int)) with
      | none => Except.error "ValueError in strptime"
      | some scodDt =>
        if ({ subDays scodDt (ACCOUNTING_DATE_OFFSET_DAYS : Int) with
              day := 3, hour := 23, minute := 59, second := 59 } : Datetime).ltb das = true then
          Except.ok false
        else Except.ok true

/-- The closeout month/day table read as numbers, for the
specification-side formulation of the accounting-date gate. -/
def closeoutMonthDay : String → Option (Nat × Nat)
  | "AB" => some (31, 3)
  | "AMN" => some (31, 3)
  | "A1C" => some (31, 3)
  | "SRA" => some (31, 3)
  | "SSG" => some (31, 1)
  | "TSG" => some (30, 11)
  | "MSG" => some (30, 9)
  | "SMS" => some (31, 7)
  | _ => none

/-- Specification-side accounting-date gate, written from the
specification's words for comparison with `accounting_date_check`: look
up the grade's closeout month/day; the closeout year is `cycle + 1` when
the closeout month is January, February or March and `cycle` otherwise;
subtract 119 days; snap to the 3rd calendar day of that month at
23:59:59; return `false` exactly when the arrival date is absent or
strictly after the snapped date. -/
def accountingDateCheckSpec (date_arrived_station : Option Datetime) (grade : String)
    (year : Nat) : Option Bool :=
  (closeoutMonthDay grade).map (fun dm =>
    match date_arrived_station with
    | none => false
    | some das =>
      !(({ subDays ⟨(if dm.2 = 1 ∨ dm.2 = 2 ∨ dm.2 = 3 then (year : Int) + 1 else (year : Int)),
              dm.2, dm.1, 0, 0, 0⟩ 119 with
            day := 3, hour := 23, minute := 59, second := 59 } : Datetime).ltb das))

/-- One roster record after the column filtering and the up-front date
parsing of `roster_processor` (the four date columns are parsed once
with `parse_date` before the processing loop).  `none` in an `Option`
field is a pandas `NaN`/missing value. -/
structure Row where
  full_name : Option String
  grade : Option String
  assigned_pas_cleartext : Option String
  dafsc : Option String
  dor : Option Datetime
  date_arrived_station : Option Datetime
  tafmsd : Option Datetime
  reenl_elig_status : Option String
  assigned_pas : Option String
  pafsc : Option String
  grade_perm_proj : Option String
  uif_code : PyValue
  uif_disposition_date : Option Datetime
  two_afsc : Option String
  three_afsc : Option String
  four_afsc : Option String
deriving DecidableEq, Repr

/-- What the processing loop does with one row: silently skipped, or
bucketed with the verdict of `board_filter`. -/
inductive RowOutcome where
  | skipped
  | eligibleR
  | discrepancyR (reason : String)
  | btzR
  | ineligibleR (reason : String)
deriving DecidableEq, Repr

/-- Python `==` between two optional strings where a missing value is
`NaN`: `NaN` compares unequal to everything, including `None`. -/
def optEqStrict (a b : Option String) : Bool :=
  match a, b with
  | some x, some y => x == y
  | _, _ => false

/-- The required-data check of the loop (lines 130-137):
`pd.isna(row[column])` over `REQUIRED_COLUMNS` (the date columns were
already parsed, so an unreadable date is `None` and counts as missing). -/
def missingRequired (r : Row) : Bool :=
  r.full_name.isNone || r.grade.isNone || r.assigned_pas_cleartext.isNone ||
    r.dafsc.isNone || r.dor.isNone || r.date_arrived_station.isNone ||
    r.tafmsd.isNone || r.reenl_elig_status.isNone || r.assigned_pas.isNone ||
    r.pafsc.isNone

/-- A parsed date column passed on to `board_filter`, which re-parses it
(`parse_date` is the identity on datetimes and maps `None`/`NaN` to
`None`). -/
def optDt : Option Datetime → PyValue
  | some d => PyValue.dt d
  | none => PyValue.pynone

/-- Classification of one row by the processing loop of
`roster_processor` (src/roster_processor.py, lines 81-214): officer,
unknown-rank, next-grade-projected, wrong-cycle and
accounting-date-failed rows are skipped silently; then the
required-data check, the already-projected check, and `board_filter`.
An exception escaping `accounting_date_check` aborts the whole roster
pass, hence the error case. -/
def classifyRow (cycle : String) (year : Nat) (r : Row) : Except String RowOutcome :=
  match r.grade with
  | none => Except.ok RowOutcome.skipped
  | some g =>
    if OFFICER_RANKS.contains g then Except.ok RowOutcome.skipped
    else if !(ENLISTED_RANKS.contains g) then Except.ok RowOutcome.skipped
    else if optEqStrict r.grade_perm_proj (PROMOTIONAL_MAP cycle) then Except.ok RowOutcome.skipped
    else
      let has_projected_grade := optEqStrict r.grade_perm_proj (some cycle)
      let grade_matches_cycle := g == cycle || (g == "A1C" && cycle == "SRA")
      if !(grade_matches_cycle || has_projected_grade) then Except.ok RowOutcome.skipped
      else
        match accounting_date_check r.date_arrived_station cycle year with
        | Except.error e => Except.error e
        | Except.ok false => Except.ok RowOutcome.skipped
        | Except.ok true =>
          if missingRequired r then Except.ok (RowOutcome.ineligibleR "Missing required data")
          else if has_projected_grade then
            Except.ok (RowOutcome.ineligibleR ("Projected for " ++ cycle ++ "."))
          else
            match board_filter g year (optDt r.dor) r.uif_code
                (optDt r.uif_disposition_date) (optDt r.tafmsd) r.reenl_elig_status
                r.pafsc r.two_afsc r.three_afsc r.four_afsc with
            | Verdict.notApplicable => Except.ok RowOutcome.skipped
            | Verdict.discrepancy s => Except.ok (RowOutcome.discrepancyR s)
            | Verdict.eligibleBtz => Except.ok RowOutcome.btzR
            | Verdict.ineligible s => Except.ok (RowOutcome.ineligibleR s)
            | Verdict.eligible => Except.ok RowOutcome.eligibleR

/-- The per-roster accumulation of the loop: the four index lists and
the reason map (a Python dict keyed by the row index; every index is
visited once and assigned at most once, so an association list is
faithful).  The unit/pascode tracking feeds only the small-unit
reporting, not the bucketing, and is omitted. -/
structure RPResult where
  eligible : List Nat
  btz : List Nat
  ineligible : List Nat
  discrepancy : List Nat
  reasons : List (Nat × String)
deriving DecidableEq, Repr

/-- How one classified row updates the accumulators (lines 139-214):
a discrepancy row is appended to both the eligible and the discrepancy
lists and its reason recorded; an ineligible row to the ineligible list
with its reason; a BTZ row to the BTZ list; an eligible row to the
eligible list; a skipped row nowhere. -/
def applyOutcome (acc : RPResult) (i : Nat) : RowOutcome → RPResult
  | RowOutcome.skipped => acc
  | RowOutcome.eligibleR => { acc with eligible := acc.eligible ++ [i] }
  | RowOutcome.discrepancyR s =>
    { acc with eligible := acc.eligible ++ [i], discrepancy := acc.discrepancy ++ [i],
               reasons := acc.reasons ++ [(i, s)] }
  | RowOutcome.btzR => { acc with btz := acc.btz ++ [i] }
  | RowOutcome.ineligibleR s =>
    { acc with ineligible := acc.ineligible ++ [i], reasons := acc.reasons ++ [(i, s)] }

/-- The processing loop over the remaining rows, starting at row index
`i` with accumulated state `acc`. -/
def rpGo (cycle : String) (year : Nat) : List Row → Nat → RPResult → Except String RPResult
  | [], _, acc => Except.ok acc
  | r :: rest, i, acc =>
    match classifyRow cycle year r with
    | Except.error e => Except.error e
    | Except.ok o => rpGo cycle year rest (i + 1) (applyOutcome acc i o)

/-- Embedding of the classification core of `roster_processor`
(src/roster_processor.py, lines 81-214): the member-by-member loop over
the roster.  The input is the roster after the structural
missing-columns gate (a `Row` holds every required and optional
column), and the output is the bucket/reason state the function then
writes into the session. -/
def roster_processor (roster : List Row) (cycle : String) (year : Nat) :
    Except String RPResult :=
  rpGo cycle year roster 0 ⟨[], [], [], [], []⟩

/-- Outcomes that land in the eligible list (a discrepancy member is
still added to the eligible roster). -/
def isEligOutcome : RowOutcome → Bool
  | RowOutcome.eligibleR => true
  | RowOutcome.discrepancyR _ => true
  | _ => false

/-- Outcomes that land in the BTZ list. -/
def isBtzOutcome : RowOutcome → Bool
  | RowOutcome.btzR => true
  | _ => false

/-- Outcomes that land in the ineligible list. -/
def isInelOutcome : RowOutcome → Bool
  | RowOutcome.ineligibleR _ => true
  | _ => false

/-- Outcomes that land in the discrepancy list. -/
def isDiscOutcome : RowOutcome → Bool
  | RowOutcome.discrepancyR _ => true
  | _ => false

/-- The reason an outcome records in the reason map, if any. -/
def reasonOf : RowOutcome → Option String
  | RowOutcome.ineligibleR s => some s
  | RowOutcome.discrepancyR s => some s
  | _ => none

/-- The indices, starting at `i`, of the rows whose classification
satisfies `p` (used to state what the processing loop accumulates). -/
def selIdx (cycle : String) (year : Nat) (p : RowOutcome → Bool) :
    List Row → Nat → List Nat
  | [], _ => []
  | r :: rest, i =>
    (match classifyRow cycle year r with
     | Except.ok o => if p o then [i] else []
     | Except.error _ => []) ++ selIdx cycle year p rest (i + 1)

/-- The (index, reason) pairs, starting at `i`, that the processing loop
records in the reason map. -/
def selReasons (cycle : String) (year : Nat) : List Row → Nat → List (Nat × String)
  | [], _ => []
  | r :: rest, i =>
    (match classifyRow cycle year r with
     | Except.ok o =>
       match reasonOf o with
       | some s => [(i, s)]
       | none => []
     | Except.error _ => []) ++ selReasons cycle year rest (i + 1)

/-- What it means for index `j`, classified with outcome `o`, to be
bucketed exactly as the processing loop prescribes. -/
def bucketsMatch (j : Nat) (o : RowOutcome) (res : RPResult) : Prop :=
  match o with
  | RowOutcome.skipped =>
    j ∉ res.eligible ∧ j ∉ res.btz ∧ j ∉ res.ineligible ∧ j ∉ res.discrepancy
  | RowOutcome.eligibleR =>
    j ∈ res.eligible ∧ j ∉ res.btz ∧ j ∉ res.ineligible ∧ j ∉ res.discrepancy
  | RowOutcome.discrepancyR s =>
    j ∈ res.eligible ∧ j ∈ res.discrepancy ∧ (j, s) ∈ res.reasons ∧
      j ∉ res.btz ∧ j ∉ res.ineligible
  | RowOutcome.btzR =>
    j ∈ res.btz ∧ j ∉ res.eligible ∧ j ∉ res.ineligible ∧ j ∉ res.discrepancy
  | RowOutcome.ineligibleR s =>
    j ∈ res.ineligible ∧ (j, s) ∈ res.reasons ∧ j ∉ res.eligible ∧
      j ∉ res.btz ∧ j ∉ res.discrepancy

/-- A concrete, fully populated SSG roster row used by the concrete
instantiations: clean record, 7-level primary specialty, early arrival
and a TAFMSD passing every date check of cycle 2025. -/
def sampleRow : Row :=
  { full_name := some "DOE, JANE", grade := some "SSG",
    assigned_pas_cleartext := some "51 FSS", dafsc := some "3D171",
    dor := some ⟨2022, 1, 1, 0, 0, 0⟩,
    date_arrived_station := some ⟨2024, 1, 1, 0, 0, 0⟩,
    tafmsd := some ⟨2015, 1, 1, 0, 0, 0⟩, reenl_elig_status := some "1A",
    assigned_pas := some "AA00", pafsc := some "3D171", grade_perm_proj := none,
    uif_code := PyValue.pynone, uif_disposition_date := none,
    two_afsc := none, three_afsc := none, four_afsc := none }

/-- Every month has at least one day. -/
theorem one_le_daysInMonth (y : Int) (m : Nat) : 1 ≤ daysInMonth y m := by
  unfold daysInMonth
  split
  · split <;> norm_num
  all_goals norm_num

/-- The bespoke `Rat.floor` agrees with the floor of the floor ring. -/
theorem rat_floor_eq_intFloor (q : ℚ) : Rat.floor q = ⌊q⌋ := rfl

/-- A `"DD-MON"` table entry whose day fits its month parses, for any
year, to the corresponding date. -/
theorem strptimeMD_some (md : String) (d m : Nat) (h : parseDayMonth md = some (d, m))
    (h1 : 1 ≤ d) (h2 : ∀ y, d ≤ daysInMonth y m) (y : Int) :
    strptimeMD md y = some ⟨y, m, d, 0, 0, 0⟩ := by
  unfold strptimeMD
  rw [h]
  exact if_pos ⟨h1, h2 y⟩

/-- The TIG cutoff of an A1C member, for any cycle year. -/
theorem tig_A1C (year : Nat) :
    tig_eligibility_month "A1C" year =
      some (addMonths ⟨(year : Int) + 1, 2, 1, 0, 0, 0⟩ (-10)) := by
  show Option.map (fun d => addMonths d (-((10 : Nat) : Int))) (strptimeMD "01-FEB" ((year : Int) + 1)) = _
  rw [strptimeMD_some "01-FEB" 1 2 rfl (by norm_num) (fun y => one_le_daysInMonth y 2)]
  norm_num

/-- The months subtracted by the TIS requirement of an A1C member. -/
theorem tafmsdMonths_A1C : tafmsdMonths "A1C" = some 15 := by
  unfold tafmsdMonths
  rw [show TAFMSD "A1C" = some (mkRat 5 4) from rfl]
  simp only [Option.map_some', rat_floor_eq_intFloor, Rat.mkRat_eq_div]
  norm_num

/-- The TIS required-by date of an A1C member, for any cycle year. -/
theorem tafreq_A1C (year : Nat) :
    tafmsd_required_date "A1C" year =
      some (addMonths ⟨(year : Int) + 1, 2, 1, 0, 0, 0⟩ (-15)) := by
  unfold tafmsd_required_date
  rw [show TIG "A1C" = some "01-FEB" from rfl, tafmsdMonths_A1C]
  show Option.map (fun d => addMonths d (-(15 : Int))) (strptimeMD "01-FEB" ((year : Int) + 1)) = _
  rw [strptimeMD_some "01-FEB" 1 2 rfl (by norm_num) (fun y => one_le_daysInMonth y 2)]
  rfl

/-- The higher-tenure month offset of an A1C member. -/
theorem hytMonths_A1C : hytMonths "A1C" = some 96 := by
  unfold hytMonths
  rw [show MAIN_HIGHER_TENURE "A1C" = some (mkRat 8 1) from rfl]
  simp only [Option.map_some', rat_floor_eq_intFloor, Rat.mkRat_eq_div]
  norm_num

/-- The standard HYT date of an A1C member. -/
theorem hyt_A1C (tafmsd : Datetime) :
    hyt_date_std "A1C" tafmsd = some (addMonths tafmsd 96) := by
  unfold hyt_date_std
  rw [hytMonths_A1C]
  rfl

/-- All key dates of an A1C member, for any cycle year. -/
theorem keyDates_A1C (year : Nat) (tafmsd : Datetime) :
    keyDates "A1C" year tafmsd =
      some (⟨(year : Int) + 1, 3, 31, 0, 0, 0⟩,
        addMonths ⟨(year : Int) + 1, 2, 1, 0, 0, 0⟩ (-10),
        addMonths ⟨(year : Int) + 1, 2, 1, 0, 0, 0⟩ (-15),
        addMonths tafmsd 96,
        ⟨(year : Int) + 1, 9, 1, 0, 0, 0⟩) := by
  unfold keyDates
  rw [show scod_as_datetime "A1C" year = some ⟨(year : Int) + 1, 3, 31, 0, 0, 0⟩ from rfl,
    tig_A1C, tafreq_A1C, hyt_A1C,
    show mdos_date "A1C" year = some ⟨(year : Int) + 1, 9, 1, 0, 0, 0⟩ from
      strptimeMD_some "01-SEP" 1 9 rfl (by norm_num) (fun y => one_le_daysInMonth y 9) _]

/-- The higher-tenure month offset of an SSG member. -/
theorem hytMonths_SSG : hytMonths "SSG" = some 240 := by
  unfold hytMonths
  rw [show MAIN_HIGHER_TENURE "SSG" = some (mkRat 20 1) from rfl]
  simp only [Option.map_some', rat_floor_eq_intFloor, Rat.mkRat_eq_div]
  norm_num

/-- All key dates of an SSG member in cycle 2025 (the C1 scenario). -/
theorem keyDates_SSG_2025 (tafmsd : Datetime) :
    keyDates "SSG" 2025 tafmsd =
      some (⟨2026, 1, 31, 0, 0, 0⟩, ⟨2024, 9, 1, 0, 0, 0⟩, ⟨2021, 8, 1, 0, 0, 0⟩,
        addMonths tafmsd 240, ⟨2026, 8, 1, 0, 0, 0⟩) := by
  unfold keyDates
  rw [show scod_as_datetime "SSG" 2025 = some ⟨2026, 1, 31, 0, 0, 0⟩ from rfl,
    show tig_eligibility_month "SSG" 2025 = some ⟨2024, 9, 1, 0, 0, 0⟩ from rfl,
    show tafmsd_required_date "SSG" 2025 = some ⟨2021, 8, 1, 0, 0, 0⟩ from by
      unfold tafmsd_required_date
      rw [show TIG "SSG" = some "01-AUG" from rfl,
        show tafmsdMonths "SSG" = some 60 from by
          unfold tafmsdMonths
          rw [show TAFMSD "SSG" = some (mkRat 5 1) from rfl]
          simp only [Option.map_some', rat_floor_eq_intFloor, Rat.mkRat_eq_div]
          norm_num]
      rfl,
    show hyt_date_std "SSG" tafmsd = some (addMonths tafmsd 240) from by
      unfold hyt_date_std
      rw [hytMonths_SSG]
      rfl,
    show mdos_date "SSG" 2025 = some ⟨2026, 8, 1, 0, 0, 0⟩ from rfl]

/-- The UIF short-circuit either passes or flags the code. -/
theorem uif_flag_cases (u : Int) (dispo : Option Datetime) (scod : Datetime) :
    uif_flag u dispo scod = none ∨
      uif_flag u dispo scod = some (Verdict.discrepancy ("UIF code: " ++ toString u)) := by
  unfold uif_flag
  split
  · exact Or.inr rfl
  · exact Or.inl rfl

/-- Steps 8 through 11 of the rule chain can only produce a discrepancy
or an eligible verdict, never an ineligible one. -/
theorem board_step8_uif_ne_ineligible (grade : String) (scod : Datetime) (uifv : PyValue)
    (dispo : Option Datetime) (re : Option String) (p1 p2 p3 p4 : Option String)
    (btz : Option Bool) (s : String) :
    board_step8_uif grade scod uifv dispo re p1 p2 p3 p4 btz ≠ Verdict.ineligible s := by
  unfold board_step8_uif
  rcases uif_flag_cases (normalize_uif uifv) dispo scod with h | h <;> rw [h]
  · show board_step9_re grade re p1 p2 p3 p4 btz ≠ Verdict.ineligible s
    unfold board_step9_re board_step10_pafsc board_step11_final
    repeat' split
    all_goals simp
  · show Verdict.discrepancy _ ≠ Verdict.ineligible s
    simp

/-- On scalar values whose datetime payloads (structured, serial or
parsed from text) lie within the pandas `Timestamp` range, the refined
`parse_date_checked` returns without error exactly what `parse_date`
computes. -/
theorem parse_date_checked_agrees (v : PyValue)
    (h1 : ∀ d, v = PyValue.dt d → inTimestampBounds d = true)
    (h2 : ∀ n, v = PyValue.num n → inTimestampBounds (excelSerialToDate n) = true)
    (h3 : ∀ s d, v = PyValue.str s → parseDMYString (pyStrip s) = some d →
      inTimestampBounds d = true) :
    parse_date_checked (PyInput.scalar v) = Except.ok (parse_date v) := by
  cases v with
  | pynone => rfl
  | nan => rfl
  | dt d =>
    show (if inTimestampBounds d = true then _ else _) = _
    rw [if_pos (h1 d rfl)]
    rfl
  | num n =>
    show (if 1 ≤ n ∧ n ≤ 2958465 then
        Except.ok (if inTimestampBounds (excelSerialToDate n) = true then
          some (excelSerialToDate n) else none)
      else Except.ok none) =
      Except.ok (if 1 ≤ n ∧ n ≤ 2958465 then some (excelSerialToDate n) else none)
    by_cases hr : 1 ≤ n ∧ n ≤ 2958465
    · rw [if_pos hr, if_pos hr, if_pos (h2 n rfl)]
    · rw [if_neg hr, if_neg hr]
  | str s =>
    show (if s = "" then Except.ok none
      else Except.ok (match parseDMYString (pyStrip s) with
        | some d => if inTimestampBounds d = true then some d else none
        | none => none)) =
      Except.ok (if s = "" then none else parseDMYString (pyStrip s))
    by_cases he : s = ""
    · rw [if_pos he, if_pos he]
    · rw [if_neg he, if_neg he]
      cases hp : parseDMYString (pyStrip s) with
      | none => rfl
      | some d => simp [h3 s d rfl hp]

/-- C9 counterexample: the structured datetime 1 January 1500 — a valid
Python `datetime` and one of the claim's named input shapes — lies
outside the pandas `Timestamp` range, so the unguarded
`pd.to_datetime(value).to_pydatetime()` branch raises instead of
returning a datetime or `None`. -/
theorem claim_c9_counterexample :
    parse_date_checked (PyInput.scalar (PyValue.dt ⟨1500, 1, 1, 0, 0, 0⟩)) =
      Except.error "OutOfBoundsDatetime: Out of bounds nanosecond timestamp" ∧
    ∀ o, parse_date_checked (PyInput.scalar (PyValue.dt ⟨1500, 1, 1, 0, 0, 0⟩)) ≠
      Except.ok o := by
  refine ⟨rfl, fun o h => ?_⟩
  rw [show parse_date_checked (PyInput.scalar (PyValue.dt ⟨1500, 1, 1, 0, 0, 0⟩)) =
    Except.error "OutOfBoundsDatetime: Out of bounds nanosecond timestamp" from rfl] at h
  exact Except.noConfusion h

/-- C9 amended: for every input that is not a structured datetime
outside the pandas `Timestamp` range and not an array-like of length
other than one, `parse_date` returns (without raising) either a
canonical datetime or `None`; the two excluded shapes instead escape as
`OutOfBoundsDatetime` and `ValueError` exceptions. -/
theorem claim_c9_parse_date_scalar_total (x : PyInput)
    (hdt : ∀ d, x = PyInput.scalar (PyValue.dt d) → inTimestampBounds d = true)
    (harr : ∀ n, x = PyInput.arraylike n → n = 1) :
    ∃ o, parse_date_checked x = Except.ok o ∧
      (o = none ∨ ∃ d, o = some d) := by
  cases x with
  | arraylike n =>
    refine ⟨none, ?_, Or.inl rfl⟩
    show (if n = 1 then _ else _) = _
    rw [if_pos (harr n rfl)]
  | scalar v =>
    cases v with
    | pynone => exact ⟨none, rfl, Or.inl rfl⟩
    | nan => exact ⟨none, rfl, Or.inl rfl⟩
    | dt d =>
      refine ⟨some d, ?_, Or.inr ⟨d, rfl⟩⟩
      show (if inTimestampBounds d = true then _ else _) = _
      rw [if_pos (hdt d rfl)]
    | num n =>
      show ∃ o, (if 1 ≤ n ∧ n ≤ 2958465 then _ else _) = _ ∧ _
      by_cases hr : 1 ≤ n ∧ n ≤ 2958465
      · rw [if_pos hr]
        by_cases hb : inTimestampBounds (excelSerialToDate n) = true
        · exact ⟨some (excelSerialToDate n), by rw [if_pos hb], Or.inr ⟨_, rfl⟩⟩
        · exact ⟨none, by rw [if_neg hb], Or.inl rfl⟩
      · rw [if_neg hr]
        exact ⟨none, rfl, Or.inl rfl⟩
    | str s =>
      show ∃ o, (if s = "" then _ else _) = _ ∧ _
      by_cases he : s = ""
      · rw [if_pos he]
        exact ⟨none, rfl, Or.inl rfl⟩
      · rw [if_neg he]
        cases hp : parseDMYString (pyStrip s) with
        | none => exact ⟨none, rfl, Or.inl rfl⟩
        | some d =>
          by_cases hb : inTimestampBounds d = true
          · exact ⟨some d, by simp [hb], Or.inr ⟨d, rfl⟩⟩
          · exact ⟨none, by simp [hb], Or.inl rfl⟩

/-- C9 witness: the amended claim at the canonical date text
"01-Jan-2022". -/
theorem claim_c9_witness :
    ∃ o, parse_date_checked (PyInput.scalar (PyValue.str "01-Jan-2022")) = Except.ok o ∧
      (o = none ∨ ∃ d, o = some d) :=
  claim_c9_parse_date_scalar_total (PyInput.scalar (PyValue.str "01-Jan-2022"))
    (fun _ hd => nomatch hd) (fun _ hn => nomatch hn)

/-- C8: any exception raised inside the evaluation body of
`board_filter` is caught at the engine boundary and converted to the
ineligible verdict whose reason begins with the processing-error
message; `board_filter` itself is total and never propagates a fault. -/
theorem claim_c8_exceptions_caught (grade : String) (year : Nat)
    (date_of_rank uif_code uif_disposition_date tafmsd : PyValue)
    (re_status pafsc two_afsc three_afsc four_afsc : Option String) (e : String)
    (h : boardFilterBody grade year date_of_rank uif_code uif_disposition_date tafmsd
      re_status pafsc two_afsc three_afsc four_afsc = Except.error e) :
    board_filter grade year date_of_rank uif_code uif_disposition_date tafmsd
      re_status pafsc two_afsc three_afsc four_afsc =
        Verdict.ineligible ("Processing error: " ++ e) := by
  unfold board_filter
  rw [h]

/-- C8 witness: a grade missing from the regulatory tables (here the
top enlisted grade CMS, absent from `SCODS`) makes the body fault, and
`board_filter` converts the fault into the processing-error verdict. -/
theorem claim_c8_witness :
    boardFilterBody "CMS" 2025 (PyValue.dt ⟨2022, 1, 1, 0, 0, 0⟩) PyValue.pynone
        PyValue.pynone (PyValue.dt ⟨2015, 1, 1, 0, 0, 0⟩) none none none none none =
      Except.error "NoneType object has no attribute split" ∧
    board_filter "CMS" 2025 (PyValue.dt ⟨2022, 1, 1, 0, 0, 0⟩) PyValue.pynone
        PyValue.pynone (PyValue.dt ⟨2015, 1, 1, 0, 0, 0⟩) none none none none none =
      Verdict.ineligible ("Processing error: " ++ "NoneType object has no attribute split") :=
  ⟨rfl, claim_c8_exceptions_caught "CMS" 2025 _ _ _ _ none none none none none _ rfl⟩

/-- Bridging form of the final comparison of the two accounting-gate
formulations. -/
theorem ok_iff_bool (x : Bool) :
    ∃ b, ((if x = true then (Except.ok false : Except String Bool) else Except.ok true) =
        Except.ok b ∧ (some (!x) : Option Bool) = some b) := by
  cases x <;> exact ⟨_, rfl, rfl⟩

/-- The code-side and specification-side accounting gates agree for a
grade whose table entries are consistent. -/
theorem accounting_agrees (grade md : String) (d m : Nat)
    (hS : SCODS grade = some md) (hC : closeoutMonthDay grade = some (d, m))
    (hP : parseDayMonth md = some (d, m)) (h1 : 1 ≤ d) (h2 : ∀ y, d ≤ daysInMonth y m)
    (hM : (scodMonthName md = "JAN" ∨ scodMonthName md = "FEB" ∨ scodMonthName md = "MAR") ↔
      (m = 1 ∨ m = 2 ∨ m = 3))
    (year : Nat) (das : Option Datetime) :
    ∃ b, accounting_date_check das grade year = Except.ok b ∧
      accountingDateCheckSpec das grade year = some b := by
  cases das with
  | none =>
    refine ⟨false, rfl, ?_⟩
    unfold accountingDateCheckSpec
    rw [hC]
    rfl
  | some a =>
    unfold accounting_date_check accountingDateCheckSpec
    simp only [hS, hC, Option.map_some']
    by_cases hq : m = 1 ∨ m = 2 ∨ m = 3
    · rw [if_pos (hM.mpr hq), if_pos hq]
      simp only [strptimeMD_some md d m hP h1 h2, ACCOUNTING_DATE_OFFSET_DAYS, Nat.cast_ofNat]
      exact ok_iff_bool _
    · rw [if_neg (fun hh => hq (hM.mp hh)), if_neg hq]
      simp only [strptimeMD_some md d m hP h1 h2, ACCOUNTING_DATE_OFFSET_DAYS, Nat.cast_ofNat]
      exact ok_iff_bool _

/-- C2: for every grade in the closeout table, cycle year and
arrival-at-station value, `accounting_date_check` computes the closeout
date with year `cycle + 1` exactly when the closeout month is January,
February or March, subtracts 119 days, snaps to the 3rd of that month at
23:59:59, and returns `false` exactly when the arrival date is absent or
strictly after the snapped date — as stated by the specification-side
`accountingDateCheckSpec`. -/
theorem claim_c2_accounting_date (grade : String) (h : (SCODS grade).isSome = true)
    (year : Nat) (das : Option Datetime) :
    ∃ b, accounting_date_check das grade year = Except.ok b ∧
      accountingDateCheckSpec das grade year = some b := by
  unfold SCODS at h
  split at h
  · exact accounting_agrees "AB" "31-MAR" 31 3 rfl rfl rfl (by norm_num)
      (fun y => Nat.le.refl) (by decide) year das
  · exact accounting_agrees "AMN" "31-MAR" 31 3 rfl rfl rfl (by norm_num)
      (fun y => Nat.le.refl) (by decide) year das
  · exact accounting_agrees "A1C" "31-MAR" 31 3 rfl rfl rfl (by norm_num)
      (fun y => Nat.le.refl) (by decide) year das
  · exact accounting_agrees "SRA" "31-MAR" 31 3 rfl rfl rfl (by norm_num)
      (fun y => Nat.le.refl) (by decide) year das
  · exact accounting_agrees "SSG" "31-JAN" 31 1 rfl rfl rfl (by norm_num)
      (fun y => Nat.le.refl) (by decide) year das
  · exact accounting_agrees "TSG" "30-NOV" 30 11 rfl rfl rfl (by norm_num)
      (fun y => Nat.le.refl) (by decide) year das
  · exact accounting_agrees "MSG" "30-SEP" 30 9 rfl rfl rfl (by norm_num)
      (fun y => Nat.le.refl) (by decide) year das
  · exact accounting_agrees "SMS" "31-JUL" 31 7 rfl rfl rfl (by norm_num)
      (fun y => Nat.le.refl) (by decide) year das
  · simp at h

/-- C2 witness: the SSG gate at cycle year 2025 with an arrival on
4 October 2025, one day past the snapped accounting date, is rejected by
both formulations. -/
theorem claim_c2_witness :
    ∃ b, accounting_date_check (some ⟨2025, 10, 4, 0, 0, 0⟩) "SSG" 2025 = Except.ok b ∧
      accountingDateCheckSpec (some ⟨2025, 10, 4, 0, 0, 0⟩) "SSG" 2025 = some b :=
  claim_c2_accounting_date "SSG" rfl 2025 (some ⟨2025, 10, 4, 0, 0, 0⟩)

/-- C3: an A1C member whose 28-month sub-check is ambiguous and whose
below-the-zone sub-check fails is returned as not-applicable (`None`),
which is distinct from every ineligible verdict. -/
theorem claim_c3_a1c_not_applicable (year : Nat) (d t : Datetime) (uifV dispoV : PyValue)
    (re p1 p2 p3 p4 : Option String)
    (h1 : check_a1c_eligbility (PyValue.dt d) year = none)
    (h2 : btz_elgibility_check (PyValue.dt d) year = false) :
    board_filter "A1C" year (PyValue.dt d) uifV dispoV (PyValue.dt t) re p1 p2 p3 p4 =
      Verdict.notApplicable ∧ ∀ s, Verdict.notApplicable ≠ Verdict.ineligible s := by
  refine ⟨?_, fun s h => by cases h⟩
  unfold board_filter boardFilterBody
  simp only [parse_date, keyDates_A1C]
  unfold board_step3_a1c
  simp only [h1, h2, if_pos rfl]
  simp

/-- C3 witness: date of rank 15 January 2024 in cycle 2025 makes the
28-month sub-check ambiguous and fails the BTZ sub-check, so the member
is excluded as not-applicable. -/
theorem claim_c3_witness :
    check_a1c_eligbility (PyValue.dt ⟨2024, 1, 15, 0, 0, 0⟩) 2025 = none ∧
    btz_elgibility_check (PyValue.dt ⟨2024, 1, 15, 0, 0, 0⟩) 2025 = false ∧
    (board_filter "A1C" 2025 (PyValue.dt ⟨2024, 1, 15, 0, 0, 0⟩) PyValue.pynone PyValue.pynone
        (PyValue.dt ⟨2023, 1, 1, 0, 0, 0⟩) none none none none none = Verdict.notApplicable ∧
      ∀ s, Verdict.notApplicable ≠ Verdict.ineligible s) :=
  ⟨rfl, rfl,
    claim_c3_a1c_not_applicable 2025 ⟨2024, 1, 15, 0, 0, 0⟩ ⟨2023, 1, 1, 0, 0, 0⟩
      PyValue.pynone PyValue.pynone none none none none none rfl rfl⟩

/-- C4: for a member of one of the three most junior grades whose dates
parse and whose A1C gate (when applicable) did not decide the outcome,
`board_filter` returns the ineligible time-in-service-ceiling verdict
exactly when TAFMSD + 36 months is on or before the closeout date, and
otherwise continues with step 5. -/
theorem claim_c4_junior_36_month_cap (g : String) (year : Nat) (dor taf : Datetime)
    (uifV dispoV : PyValue) (re p1 p2 p3 p4 : Option String)
    (scod tigm tafreq hyt0 mdos : Datetime) (btzv : Option Bool)
    (hg : g = "A1C" ∨ g = "AMN" ∨ g = "AB")
    (hkd : keyDates g year taf = some (scod, tigm, tafreq, hyt0, mdos))
    (h3 : board_step3_a1c g year dor taf scod tigm tafreq hyt0 mdos uifV (parse_date dispoV)
        re p1 p2 p3 p4 =
      board_step4_tis36 g dor taf scod tigm tafreq hyt0 mdos uifV (parse_date dispoV)
        re p1 p2 p3 p4 btzv) :
    (three_year_tafmsd_check scod (PyValue.dt taf) = true →
      board_filter g year (PyValue.dt dor) uifV dispoV (PyValue.dt taf) re p1 p2 p3 p4 =
        Verdict.ineligible "SRA 2 Feb - 31 Mar or 3yr TIS") ∧
    (three_year_tafmsd_check scod (PyValue.dt taf) = false →
      board_filter g year (PyValue.dt dor) uifV dispoV (PyValue.dt taf) re p1 p2 p3 p4 =
        board_step5_tig g dor taf scod tigm tafreq hyt0 mdos uifV (parse_date dispoV)
          re p1 p2 p3 p4 btzv) := by
  have hE : board_filter g year (PyValue.dt dor) uifV dispoV (PyValue.dt taf) re p1 p2 p3 p4 =
      board_step4_tis36 g dor taf scod tigm tafreq hyt0 mdos uifV (parse_date dispoV)
        re p1 p2 p3 p4 btzv := by
    unfold board_filter boardFilterBody
    simp only [show parse_date (PyValue.dt dor) = some dor from rfl,
      show parse_date (PyValue.dt taf) = some taf from rfl, hkd, h3]
  constructor
  · intro hc
    rw [hE]
    unfold board_step4_tis36
    rw [if_pos ⟨hg, hc⟩]
  · intro hc
    rw [hE]
    unfold board_step4_tis36
    rw [if_neg (fun hh => Bool.false_ne_true (hc ▸ hh.2))]

unseal Rat.mul Rat.sub in
/-- C4 witness: an AMN member with TAFMSD 1 January 2023 in cycle 2025
(TAFMSD + 36 months = 1 January 2026, on or before the 31 March 2026
closeout) is ineligible with the time-in-service-ceiling reason. -/
theorem claim_c4_witness :
    three_year_tafmsd_check ⟨2026, 3, 31, 0, 0, 0⟩ (PyValue.dt ⟨2023, 1, 1, 0, 0, 0⟩) = true ∧
    board_filter "AMN" 2025 (PyValue.dt ⟨2024, 6, 1, 0, 0, 0⟩) PyValue.pynone PyValue.pynone
        (PyValue.dt ⟨2023, 1, 1, 0, 0, 0⟩) none none none none none =
      Verdict.ineligible "SRA 2 Feb - 31 Mar or 3yr TIS" :=
  ⟨rfl,
    (claim_c4_junior_36_month_cap "AMN" 2025 ⟨2024, 6, 1, 0, 0, 0⟩ ⟨2023, 1, 1, 0, 0, 0⟩
      PyValue.pynone PyValue.pynone none none none none none
      ⟨2026, 3, 31, 0, 0, 0⟩ ⟨2025, 8, 1, 0, 0, 0⟩ ⟨2025, 8, 1, 0, 0, 0⟩
      ⟨2029, 1, 1, 0, 0, 0⟩ ⟨2026, 9, 1, 0, 0, 0⟩ none
      (Or.inr (Or.inl rfl)) (by decide) rfl).1 rfl⟩

/-- C5: for a member reaching the higher-tenure step (dates parsed, key
dates derived, A1C gate undecisive, 36-month cap passed, TIG and TIS
passed), the higher-tenure date is recomputed from the grade's exception
years exactly when the standard one falls strictly inside the extension
window, and `board_filter` returns the ineligible higher-tenure verdict
exactly when the (possibly recomputed) date is strictly before the
MDOS. -/
theorem claim_c5_higher_tenure (g : String) (year : Nat) (dor taf : Datetime)
    (uifV dispoV : PyValue) (re p1 p2 p3 p4 : Option String)
    (scod tigm tafreq hyt0 mdos : Datetime) (btzv : Option Bool)
    (hkd : keyDates g year taf = some (scod, tigm, tafreq, hyt0, mdos))
    (h3 : board_step3_a1c g year dor taf scod tigm tafreq hyt0 mdos uifV (parse_date dispoV)
        re p1 p2 p3 p4 =
      board_step4_tis36 g dor taf scod tigm tafreq hyt0 mdos uifV (parse_date dispoV)
        re p1 p2 p3 p4 btzv)
    (h4 : ¬((g = "A1C" ∨ g = "AMN" ∨ g = "AB") ∧
      three_year_tafmsd_check scod (PyValue.dt taf) = true))
    (h5 : tigm.ltb dor = false)
    (h6 : tafreq.ltb taf = false) :
    ((hyt_start_date.ltb hyt0 = true ∧ hyt0.ltb hyt_end_date = true) →
      hytAdjust g taf hyt0 = addMonths taf (12 * exception_hyt_years g)) ∧
    (board_filter g year (PyValue.dt dor) uifV dispoV (PyValue.dt taf) re p1 p2 p3 p4 =
        Verdict.ineligible "Higher tenure." ↔ (hytAdjust g taf hyt0).ltb mdos = true) := by
  have hE : board_filter g year (PyValue.dt dor) uifV dispoV (PyValue.dt taf) re p1 p2 p3 p4 =
      board_step7_hyt g taf scod hyt0 mdos uifV (parse_date dispoV) re p1 p2 p3 p4 btzv := by
    unfold board_filter boardFilterBody
    simp only [show parse_date (PyValue.dt dor) = some dor from rfl,
      show parse_date (PyValue.dt taf) = some taf from rfl, hkd, h3]
    unfold board_step4_tis36
    rw [if_neg h4]
    unfold board_step5_tig
    rw [if_neg (by simp [h5])]
    unfold board_step6_tis
    rw [if_neg (by simp [h6])]
  constructor
  · intro hw
    unfold hytAdjust
    rw [if_pos hw]
  · rw [hE]
    constructor
    · intro hres
      by_contra hlt
      unfold board_step7_hyt at hres
      rw [if_neg hlt] at hres
      exact board_step8_uif_ne_ineligible g scod uifV (parse_date dispoV) re p1 p2 p3 p4 btzv
        "Higher tenure." hres
    · intro hlt
      unfold board_step7_hyt
      rw [if_pos hlt]

unseal Rat.mul Rat.sub in
/-- C5 witness: an SSG member with TAFMSD 1 January 2004 has standard
HYT 1 January 2024, inside the extension window, so HYT is recomputed
with 22 exception years to 1 January 2026, which is before the
1 August 2026 MDOS: the member is ineligible for higher tenure. -/
theorem claim_c5_witness :
    ((hyt_start_date.ltb ⟨2024, 1, 1, 0, 0, 0⟩ = true ∧
        Datetime.ltb ⟨2024, 1, 1, 0, 0, 0⟩ hyt_end_date = true) →
      hytAdjust "SSG" ⟨2004, 1, 1, 0, 0, 0⟩ ⟨2024, 1, 1, 0, 0, 0⟩ =
        addMonths ⟨2004, 1, 1, 0, 0, 0⟩ (12 * exception_hyt_years "SSG")) ∧
    (board_filter "SSG" 2025 (PyValue.dt ⟨2022, 1, 1, 0, 0, 0⟩) PyValue.pynone PyValue.pynone
        (PyValue.dt ⟨2004, 1, 1, 0, 0, 0⟩) none none none none none =
        Verdict.ineligible "Higher tenure." ↔
      (hytAdjust "SSG" ⟨2004, 1, 1, 0, 0, 0⟩ ⟨2024, 1, 1, 0, 0, 0⟩).ltb
          ⟨2026, 8, 1, 0, 0, 0⟩ = true) :=
  claim_c5_higher_tenure "SSG" 2025 ⟨2022, 1, 1, 0, 0, 0⟩ ⟨2004, 1, 1, 0, 0, 0⟩
    PyValue.pynone PyValue.pynone none none none none none
    ⟨2026, 1, 31, 0, 0, 0⟩ ⟨2024, 9, 1, 0, 0, 0⟩ ⟨2021, 8, 1, 0, 0, 0⟩
    ⟨2024, 1, 1, 0, 0, 0⟩ ⟨2026, 8, 1, 0, 0, 0⟩ none
    (by decide) rfl (by decide) (by decide) (by decide)

/-- C6: at the unfavorable-information-file step, a normalized code of
0 or 1 never produces the UIF discrepancy flag regardless of the
disposition date, and for a member reaching that step a normalized code
above 1 with a disposition date present and strictly before the SCOD
makes `board_filter` return the discrepancy verdict whose reason carries
the code. -/
theorem claim_c6_uif (g : String) (year : Nat) (dor taf : Datetime)
    (uifV dispoV : PyValue) (re p1 p2 p3 p4 : Option String)
    (scod tigm tafreq hyt0 mdos : Datetime) (btzv : Option Bool)
    (hkd : keyDates g year taf = some (scod, tigm, tafreq, hyt0, mdos))
    (h3 : board_step3_a1c g year dor taf scod tigm tafreq hyt0 mdos uifV (parse_date dispoV)
        re p1 p2 p3 p4 =
      board_step4_tis36 g dor taf scod tigm tafreq hyt0 mdos uifV (parse_date dispoV)
        re p1 p2 p3 p4 btzv)
    (h4 : ¬((g = "A1C" ∨ g = "AMN" ∨ g = "AB") ∧
      three_year_tafmsd_check scod (PyValue.dt taf) = true))
    (h5 : tigm.ltb dor = false)
    (h6 : tafreq.ltb taf = false)
    (h7 : (hytAdjust g taf hyt0).ltb mdos = false) :
    (normalize_uif uifV ≤ 1 →
      uif_flag (normalize_uif uifV) (parse_date dispoV) scod = none) ∧
    (∀ dd, 1 < normalize_uif uifV → parse_date dispoV = some dd → dd.ltb scod = true →
      board_filter g year (PyValue.dt dor) uifV dispoV (PyValue.dt taf) re p1 p2 p3 p4 =
        Verdict.discrepancy ("UIF code: " ++ toString (normalize_uif uifV))) := by
  constructor
  · intro hle
    unfold uif_flag
    rw [if_neg (fun hh => absurd hh.1 (by omega))]
  · intro dd hgt hdd hbefore
    have hE : board_filter g year (PyValue.dt dor) uifV dispoV (PyValue.dt taf) re p1 p2 p3 p4 =
        board_step8_uif g scod uifV (parse_date dispoV) re p1 p2 p3 p4 btzv := by
      unfold board_filter boardFilterBody
      simp only [show parse_date (PyValue.dt dor) = some dor from rfl,
        show parse_date (PyValue.dt taf) = some taf from rfl, hkd, h3]
      unfold board_step4_tis36
      rw [if_neg h4]
      unfold board_step5_tig
      rw [if_neg (by simp [h5])]
      unfold board_step6_tis
      rw [if_neg (by simp [h6])]
      unfold board_step7_hyt
      rw [if_neg (by simp [h7])]
    rw [hE]
    unfold board_step8_uif uif_flag
    rw [if_pos ⟨hgt, by unfold dispoBefore; rw [hdd]; exact hbefore⟩]

unseal Rat.mul Rat.sub in
/-- C6 witness: the SSG member of the C5 scenario with a clean record
but UIF code 3 and a disposition date of 1 January 2024, before the
31 January 2026 SCOD, is flagged as a discrepancy carrying the code. -/
theorem claim_c6_witness :
    (normalize_uif (PyValue.num 3) ≤ 1 →
      uif_flag (normalize_uif (PyValue.num 3)) (parse_date (PyValue.dt ⟨2024, 1, 1, 0, 0, 0⟩))
        ⟨2026, 1, 31, 0, 0, 0⟩ = none) ∧
    (∀ dd, 1 < normalize_uif (PyValue.num 3) →
      parse_date (PyValue.dt ⟨2024, 1, 1, 0, 0, 0⟩) = some dd →
      dd.ltb ⟨2026, 1, 31, 0, 0, 0⟩ = true →
      board_filter "SSG" 2025 (PyValue.dt ⟨2022, 1, 1, 0, 0, 0⟩) (PyValue.num 3)
          (PyValue.dt ⟨2024, 1, 1, 0, 0, 0⟩) (PyValue.dt ⟨2015, 1, 1, 0, 0, 0⟩)
          none none none none none =
        Verdict.discrepancy ("UIF code: " ++ toString (normalize_uif (PyValue.num 3)))) :=
  claim_c6_uif "SSG" 2025 ⟨2022, 1, 1, 0, 0, 0⟩ ⟨2015, 1, 1, 0, 0, 0⟩
    (PyValue.num 3) (PyValue.dt ⟨2024, 1, 1, 0, 0, 0⟩) none none none none none
    ⟨2026, 1, 31, 0, 0, 0⟩ ⟨2024, 9, 1, 0, 0, 0⟩ ⟨2021, 8, 1, 0, 0, 0⟩
    (addMonths ⟨2015, 1, 1, 0, 0, 0⟩ 240) ⟨2026, 8, 1, 0, 0, 0⟩ none
    (by decide) rfl (by decide) (by decide) (by decide) (by decide)

unseal Rat.mul Rat.sub in
/-- C1 counterexample: the claimed scenario (grade SSG, cycle 2025, date
of rank 01-Jan-2022, no UIF, RE code 1A, primary specialty 3D137, no
secondary codes) with TAFMSD 1 January 2015 — which passes the
time-in-service check (first conjunct) and the higher-tenure check
(second conjunct) — does not make `board_filter` return the plain
eligible verdict: the specialty's skill-level character (position 3 of
"3D137", the digit 3) is below the 7 required for SSG, so the member is
flagged as an eligibility discrepancy instead. -/
theorem claim_c1_counterexample :
    Datetime.ltb ⟨2021, 8, 1, 0, 0, 0⟩ ⟨2015, 1, 1, 0, 0, 0⟩ = false ∧
    (hytAdjust "SSG" ⟨2015, 1, 1, 0, 0, 0⟩
        (addMonths ⟨2015, 1, 1, 0, 0, 0⟩ 240)).ltb ⟨2026, 8, 1, 0, 0, 0⟩ = false ∧
    board_filter "SSG" 2025 (PyValue.str "01-Jan-2022") PyValue.pynone PyValue.pynone
        (PyValue.dt ⟨2015, 1, 1, 0, 0, 0⟩) (some "1A") (some "3D137") none none none ≠
      Verdict.eligible := by
  refine ⟨rfl, rfl, ?_⟩
  decide

/-- C1 amended: in the claimed scenario (grade SSG, cycle 2025, date of
rank 01-Jan-2022, no UIF, RE code 1A, primary specialty 3D137, no
secondary codes), for any TAFMSD that passes the time-in-service and
higher-tenure checks, `board_filter` returns the eligible-with-
discrepancy verdict with the insufficient-skill-level reason (not the
plain eligible verdict the specification's scenario states). -/
theorem claim_c1_amended (taf : Datetime)
    (htis : Datetime.ltb ⟨2021, 8, 1, 0, 0, 0⟩ taf = false)
    (hhyt : (hytAdjust "SSG" taf (addMonths taf 240)).ltb ⟨2026, 8, 1, 0, 0, 0⟩ = false) :
    board_filter "SSG" 2025 (PyValue.str "01-Jan-2022") PyValue.pynone PyValue.pynone
        (PyValue.dt taf) (some "1A") (some "3D137") none none none =
      Verdict.discrepancy "Insufficient PAFSC skill level." := by
  unfold board_filter boardFilterBody
  simp only [show parse_date (PyValue.str "01-Jan-2022") = some ⟨2022, 1, 1, 0, 0, 0⟩ from rfl,
    show parse_date (PyValue.dt taf) = some taf from rfl,
    show parse_date PyValue.pynone = none from rfl, keyDates_SSG_2025]
  unfold board_step3_a1c
  rw [if_neg (by decide)]
  unfold board_step4_tis36
  rw [if_neg (fun hh => (by decide : ¬("SSG" = "A1C" ∨ "SSG" = "AMN" ∨ "SSG" = "AB")) hh.1)]
  unfold board_step5_tig
  rw [if_neg (by decide)]
  unfold board_step6_tis
  rw [if_neg (by simp [htis])]
  unfold board_step7_hyt
  rw [if_neg (by simp [hhyt])]
  decide

/-- C1 witness: the amended claim at TAFMSD 1 January 2015. -/
theorem claim_c1_witness :
    Datetime.ltb ⟨2021, 8, 1, 0, 0, 0⟩ ⟨2015, 1, 1, 0, 0, 0⟩ = false ∧
    (hytAdjust "SSG" ⟨2015, 1, 1, 0, 0, 0⟩
        (addMonths ⟨2015, 1, 1, 0, 0, 0⟩ 240)).ltb ⟨2026, 8, 1, 0, 0, 0⟩ = false ∧
    board_filter "SSG" 2025 (PyValue.str "01-Jan-2022") PyValue.pynone PyValue.pynone
        (PyValue.dt ⟨2015, 1, 1, 0, 0, 0⟩) (some "1A") (some "3D137") none none none =
      Verdict.discrepancy "Insufficient PAFSC skill level." :=
  ⟨rfl, rfl, claim_c1_amended ⟨2015, 1, 1, 0, 0, 0⟩ rfl rfl⟩

/-- The eligible list after one outcome. -/
theorem applyOutcome_eligible (acc : RPResult) (i : Nat) (o : RowOutcome) :
    (applyOutcome acc i o).eligible =
      acc.eligible ++ (if isEligOutcome o then [i] else []) := by
  cases o <;> simp [applyOutcome, isEligOutcome]

/-- The BTZ list after one outcome. -/
theorem applyOutcome_btz (acc : RPResult) (i : Nat) (o : RowOutcome) :
    (applyOutcome acc i o).btz = acc.btz ++ (if isBtzOutcome o then [i] else []) := by
  cases o <;> simp [applyOutcome, isBtzOutcome]

/-- The ineligible list after one outcome. -/
theorem applyOutcome_ineligible (acc : RPResult) (i : Nat) (o : RowOutcome) :
    (applyOutcome acc i o).ineligible =
      acc.ineligible ++ (if isInelOutcome o then [i] else []) := by
  cases o <;> simp [applyOutcome, isInelOutcome]

/-- The discrepancy list after one outcome. -/
theorem applyOutcome_discrepancy (acc : RPResult) (i : Nat) (o : RowOutcome) :
    (applyOutcome acc i o).discrepancy =
      acc.discrepancy ++ (if isDiscOutcome o then [i] else []) := by
  cases o <;> simp [applyOutcome, isDiscOutcome]

/-- The reason map after one outcome. -/
theorem applyOutcome_reasons (acc : RPResult) (i : Nat) (o : RowOutcome) :
    (applyOutcome acc i o).reasons =
      acc.reasons ++ (match reasonOf o with | some s => [(i, s)] | none => []) := by
  cases o <;> simp [applyOutcome, reasonOf]

/-- A successful run of the processing loop accumulates exactly the
selected indices and reasons of the remaining rows. -/
theorem rpGo_ok_eq (cycle : String) (year : Nat) :
    ∀ (rows : List Row) (i : Nat) (acc res : RPResult),
      rpGo cycle year rows i acc = Except.ok res →
      res.eligible = acc.eligible ++ selIdx cycle year isEligOutcome rows i ∧
      res.btz = acc.btz ++ selIdx cycle year isBtzOutcome rows i ∧
      res.ineligible = acc.ineligible ++ selIdx cycle year isInelOutcome rows i ∧
      res.discrepancy = acc.discrepancy ++ selIdx cycle year isDiscOutcome rows i ∧
      res.reasons = acc.reasons ++ selReasons cycle year rows i := by
  intro rows
  induction rows with
  | nil =>
    intro i acc res h
    cases h
    simp [selIdx, selReasons]
  | cons r rest ih =>
    intro i acc res h
    unfold rpGo at h
    cases hc : classifyRow cycle year r with
    | error e => rw [hc] at h; cases h
    | ok o =>
      rw [hc] at h
      obtain ⟨e1, e2, e3, e4, e5⟩ := ih (i + 1) (applyOutcome acc i o) res h
      unfold selIdx selReasons
      rw [hc]
      exact ⟨by rw [e1, applyOutcome_eligible, List.append_assoc],
        by rw [e2, applyOutcome_btz, List.append_assoc],
        by rw [e3, applyOutcome_ineligible, List.append_assoc],
        by rw [e4, applyOutcome_discrepancy, List.append_assoc],
        by rw [e5, applyOutcome_reasons, List.append_assoc]⟩

/-- Membership in a selected index list, characterized by the
classification of the row at the corresponding offset. -/
theorem mem_selIdx (cycle : String) (year : Nat) (p : RowOutcome → Bool) :
    ∀ (rows : List Row) (i n : Nat),
      n ∈ selIdx cycle year p rows i ↔
        ∃ j r o, rows.get? j = some r ∧ n = i + j ∧
          classifyRow cycle year r = Except.ok o ∧ p o = true := by
  intro rows
  induction rows with
  | nil =>
    intro i n
    simp [selIdx]
  | cons r rest ih =>
    intro i n
    unfold selIdx
    rw [List.mem_append]
    constructor
    · intro h
      rcases h with h | h
      · cases hc : classifyRow cycle year r with
        | error e => rw [hc] at h; simp at h
        | ok o =>
          rw [hc] at h
          by_cases hp : p o = true
          · simp only [hp, if_true, List.mem_singleton] at h
            exact ⟨0, r, o, rfl, by omega, hc, hp⟩
          · simp [hp] at h
      · obtain ⟨j, rr, o, hj, hn, ho, hp⟩ := (ih (i + 1) n).mp h
        exact ⟨j + 1, rr, o, by simpa using hj, by omega, ho, hp⟩
    · rintro ⟨j, rr, o, hj, hn, ho, hp⟩
      cases j with
      | zero =>
        left
        simp only [List.get?_cons_zero, Option.some.injEq] at hj
        subst hj
        rw [ho]
        simp [hp, hn]
      | succ j =>
        right
        exact (ih (i + 1) n).mpr ⟨j, rr, o, by simpa using hj, by omega, ho, hp⟩

/-- Membership in the selected reason list, characterized by the
classification of the row at the corresponding offset. -/
theorem mem_selReasons (cycle : String) (year : Nat) :
    ∀ (rows : List Row) (i n : Nat) (s : String),
      (n, s) ∈ selReasons cycle year rows i ↔
        ∃ j r o, rows.get? j = some r ∧ n = i + j ∧
          classifyRow cycle year r = Except.ok o ∧ reasonOf o = some s := by
  intro rows
  induction rows with
  | nil =>
    intro i n s
    simp [selReasons]
  | cons r rest ih =>
    intro i n s
    unfold selReasons
    rw [List.mem_append]
    constructor
    · intro h
      rcases h with h | h
      · cases hc : classifyRow cycle year r with
        | error e => rw [hc] at h; simp at h
        | ok o =>
          rw [hc] at h
          cases hr : reasonOf o with
          | none => simp [hr] at h
          | some s0 =>
            simp only [hr, List.mem_singleton, Prod.mk.injEq] at h
            exact ⟨0, r, o, rfl, by omega, hc, by rw [hr, h.2]⟩
      · obtain ⟨j, rr, o, hj, hn, ho, hr⟩ := (ih (i + 1) n s).mp h
        exact ⟨j + 1, rr, o, by simpa using hj, by omega, ho, hr⟩
    · rintro ⟨j, rr, o, hj, hn, ho, hr⟩
      cases j with
      | zero =>
        left
        simp only [List.get?_cons_zero, Option.some.injEq] at hj
        subst hj
        rw [ho]
        simp [hr, hn]
      | succ j =>
        right
        exact (ih (i + 1) n s).mpr ⟨j, rr, o, by simpa using hj, by omega, ho, hr⟩

/-- Selected index lists never contain duplicates: indices are assigned
in strictly increasing row order. -/
theorem selIdx_nodup (cycle : String) (year : Nat) (p : RowOutcome → Bool) :
    ∀ (rows : List Row) (i : Nat), (selIdx cycle year p rows i).Nodup := by
  intro rows
  induction rows with
  | nil => intro i; simp [selIdx]
  | cons r rest ih =>
    intro i
    unfold selIdx
    have htail : ∀ n ∈ selIdx cycle year p rest (i + 1), i + 1 ≤ n := by
      intro n hn
      obtain ⟨j, rr, o, hj, hn', _, _⟩ := (mem_selIdx cycle year p rest (i + 1) n).mp hn
      omega
    cases hc : classifyRow cycle year r with
    | error e =>
      simpa using ih (i + 1)
    | ok o =>
      by_cases hp : p o = true
      · simp only [hp, if_true, List.singleton_append]
        refine List.Nodup.cons ?_ (ih (i + 1))
        intro hmem
        have := htail i hmem
        omega
      · simp only [hp, if_false, List.nil_append]
        exact ih (i + 1)

/-- Membership in the selections starting at row 0, by row index. -/
theorem mem_selIdx_zero (cycle : String) (year : Nat) (p : RowOutcome → Bool)
    (rows : List Row) (n : Nat) :
    n ∈ selIdx cycle year p rows 0 ↔
      ∃ r o, rows.get? n = some r ∧ classifyRow cycle year r = Except.ok o ∧ p o = true := by
  rw [mem_selIdx]
  constructor
  · rintro ⟨j, r, o, hj, hn, ho, hp⟩
    have hjn : j = n := by omega
    subst hjn
    exact ⟨r, o, hj, ho, hp⟩
  · rintro ⟨r, o, hj, ho, hp⟩
    exact ⟨n, r, o, hj, by omega, ho, hp⟩

/-- Membership in the reason selection starting at row 0, by row index. -/
theorem mem_selReasons_zero (cycle : String) (year : Nat)
    (rows : List Row) (n : Nat) (s : String) :
    (n, s) ∈ selReasons cycle year rows 0 ↔
      ∃ r o, rows.get? n = some r ∧ classifyRow cycle year r = Except.ok o ∧
        reasonOf o = some s := by
  rw [mem_selReasons]
  constructor
  · rintro ⟨j, r, o, hj, hn, ho, hr⟩
    have hjn : j = n := by omega
    subst hjn
    exact ⟨r, o, hj, ho, hr⟩
  · rintro ⟨r, o, hj, ho, hr⟩
    exact ⟨n, r, o, hj, by omega, ho, hr⟩

/-- Characterization of every output collection of `roster_processor`:
an index is in a bucket exactly when its own row classifies to a
matching outcome, and a reason is recorded exactly when the row's
outcome carries it. -/
theorem roster_processor_mem (rows : List Row) (cycle : String) (year : Nat)
    (res : RPResult) (h : roster_processor rows cycle year = Except.ok res) :
    (∀ n, n ∈ res.eligible ↔ ∃ r o, rows.get? n = some r ∧
      classifyRow cycle year r = Except.ok o ∧ isEligOutcome o = true) ∧
    (∀ n, n ∈ res.btz ↔ ∃ r o, rows.get? n = some r ∧
      classifyRow cycle year r = Except.ok o ∧ isBtzOutcome o = true) ∧
    (∀ n, n ∈ res.ineligible ↔ ∃ r o, rows.get? n = some r ∧
      classifyRow cycle year r = Except.ok o ∧ isInelOutcome o = true) ∧
    (∀ n, n ∈ res.discrepancy ↔ ∃ r o, rows.get? n = some r ∧
      classifyRow cycle year r = Except.ok o ∧ isDiscOutcome o = true) ∧
    (∀ n s, (n, s) ∈ res.reasons ↔ ∃ r o, rows.get? n = some r ∧
      classifyRow cycle year r = Except.ok o ∧ reasonOf o = some s) := by
  obtain ⟨e1, e2, e3, e4, e5⟩ :=
    rpGo_ok_eq cycle year rows 0 ⟨[], [], [], [], []⟩ res h
  refine ⟨fun n => ?_, fun n => ?_, fun n => ?_, fun n => ?_, fun n s => ?_⟩
  · rw [e1, show (⟨[], [], [], [], []⟩ : RPResult).eligible = [] from rfl, List.nil_append]
    exact mem_selIdx_zero cycle year isEligOutcome rows n
  · rw [e2, show (⟨[], [], [], [], []⟩ : RPResult).btz = [] from rfl, List.nil_append]
    exact mem_selIdx_zero cycle year isBtzOutcome rows n
  · rw [e3, show (⟨[], [], [], [], []⟩ : RPResult).ineligible = [] from rfl, List.nil_append]
    exact mem_selIdx_zero cycle year isInelOutcome rows n
  · rw [e4, show (⟨[], [], [], [], []⟩ : RPResult).discrepancy = [] from rfl, List.nil_append]
    exact mem_selIdx_zero cycle year isDiscOutcome rows n
  · rw [e5, show (⟨[], [], [], [], []⟩ : RPResult).reasons = [] from rfl, List.nil_append]
    exact mem_selReasons_zero cycle year rows n s

/-- Every index is bucketed exactly as its own row's classification
prescribes. -/
theorem roster_processor_bucketsMatch (rows : List Row) (cycle : String) (year : Nat)
    (res : RPResult) (h : roster_processor rows cycle year = Except.ok res) :
    ∀ j rj oj, rows.get? j = some rj → classifyRow cycle year rj = Except.ok oj →
      bucketsMatch j oj res := by
  obtain ⟨m1, m2, m3, m4, m5⟩ := roster_processor_mem rows cycle year res h
  intro j rj oj hj ho
  have hagree : ∀ (r' : Row) (o' : RowOutcome), rows.get? j = some r' →
      classifyRow cycle year r' = Except.ok o' → o' = oj := by
    intro r' o' hj' ho'
    have hr : r' = rj := by
      have := hj'.symm.trans hj
      exact Option.some.inj this
    subst hr
    exact Except.ok.inj (ho'.symm.trans ho)
  cases oj with
  | skipped =>
    refine ⟨?_, ?_, ?_, ?_⟩
    · intro hm
      obtain ⟨r', o', hj', ho', hp⟩ := (m1 j).mp hm
      rw [hagree r' o' hj' ho'] at hp
      simp [isEligOutcome] at hp
    · intro hm
      obtain ⟨r', o', hj', ho', hp⟩ := (m2 j).mp hm
      rw [hagree r' o' hj' ho'] at hp
      simp [isBtzOutcome] at hp
    · intro hm
      obtain ⟨r', o', hj', ho', hp⟩ := (m3 j).mp hm
      rw [hagree r' o' hj' ho'] at hp
      simp [isInelOutcome] at hp
    · intro hm
      obtain ⟨r', o', hj', ho', hp⟩ := (m4 j).mp hm
      rw [hagree r' o' hj' ho'] at hp
      simp [isDiscOutcome] at hp
  | eligibleR =>
    refine ⟨(m1 j).mpr ⟨rj, _, hj, ho, rfl⟩, ?_, ?_, ?_⟩
    · intro hm
      obtain ⟨r', o', hj', ho', hp⟩ := (m2 j).mp hm
      rw [hagree r' o' hj' ho'] at hp
      simp [isBtzOutcome] at hp
    · intro hm
      obtain ⟨r', o', hj', ho', hp⟩ := (m3 j).mp hm
      rw [hagree r' o' hj' ho'] at hp
      simp [isInelOutcome] at hp
    · intro hm
      obtain ⟨r', o', hj', ho', hp⟩ := (m4 j).mp hm
      rw [hagree r' o' hj' ho'] at hp
      simp [isDiscOutcome] at hp
  | discrepancyR s =>
    refine ⟨(m1 j).mpr ⟨rj, _, hj, ho, rfl⟩, (m4 j).mpr ⟨rj, _, hj, ho, rfl⟩,
      (m5 j s).mpr ⟨rj, _, hj, ho, rfl⟩, ?_, ?_⟩
    · intro hm
      obtain ⟨r', o', hj', ho', hp⟩ := (m2 j).mp hm
      rw [hagree r' o' hj' ho'] at hp
      simp [isBtzOutcome] at hp
    · intro hm
      obtain ⟨r', o', hj', ho', hp⟩ := (m3 j).mp hm
      rw [hagree r' o' hj' ho'] at hp
      simp [isInelOutcome] at hp
  | btzR =>
    refine ⟨(m2 j).mpr ⟨rj, _, hj, ho, rfl⟩, ?_, ?_, ?_⟩
    · intro hm
      obtain ⟨r', o', hj', ho', hp⟩ := (m1 j).mp hm
      rw [hagree r' o' hj' ho'] at hp
      simp [isEligOutcome] at hp
    · intro hm
      obtain ⟨r', o', hj', ho', hp⟩ := (m3 j).mp hm
      rw [hagree r' o' hj' ho'] at hp
      simp [isInelOutcome] at hp
    · intro hm
      obtain ⟨r', o', hj', ho', hp⟩ := (m4 j).mp hm
      rw [hagree r' o' hj' ho'] at hp
      simp [isDiscOutcome] at hp
  | ineligibleR s =>
    refine ⟨(m3 j).mpr ⟨rj, _, hj, ho, rfl⟩, (m5 j s).mpr ⟨rj, _, hj, ho, rfl⟩, ?_, ?_, ?_⟩
    · intro hm
      obtain ⟨r', o', hj', ho', hp⟩ := (m1 j).mp hm
      rw [hagree r' o' hj' ho'] at hp
      simp [isEligOutcome] at hp
    · intro hm
      obtain ⟨r', o', hj', ho', hp⟩ := (m2 j).mp hm
      rw [hagree r' o' hj' ho'] at hp
      simp [isBtzOutcome] at hp
    · intro hm
      obtain ⟨r', o', hj', ho', hp⟩ := (m4 j).mp hm
      rw [hagree r' o' hj' ho'] at hp
      simp [isDiscOutcome] at hp

/-- C10: for every successfully processed roster, the eligible,
below-the-zone and ineligible index collections are pairwise disjoint
and duplicate-free (as is the discrepancy collection), the discrepancy
collection is a subset of the eligible collection, and every index in
the ineligible or discrepancy collections maps to exactly one reason
string in the reason map. -/
theorem claim_c10_partition_invariants (rows : List Row) (cycle : String) (year : Nat)
    (res : RPResult) (h : roster_processor rows cycle year = Except.ok res) :
    res.eligible.Nodup ∧ res.btz.Nodup ∧ res.ineligible.Nodup ∧ res.discrepancy.Nodup ∧
    (∀ n, ¬(n ∈ res.eligible ∧ n ∈ res.btz)) ∧
    (∀ n, ¬(n ∈ res.eligible ∧ n ∈ res.ineligible)) ∧
    (∀ n, ¬(n ∈ res.btz ∧ n ∈ res.ineligible)) ∧
    (∀ n, n ∈ res.discrepancy → n ∈ res.eligible) ∧
    (∀ n, (n ∈ res.ineligible ∨ n ∈ res.discrepancy) → ∃! s, (n, s) ∈ res.reasons) := by
  obtain ⟨e1, e2, e3, e4, e5⟩ :=
    rpGo_ok_eq cycle year rows 0 ⟨[], [], [], [], []⟩ res h
  obtain ⟨m1, m2, m3, m4, m5⟩ := roster_processor_mem rows cycle year res h
  have hagree : ∀ (n : Nat) (r r' : Row) (o o' : RowOutcome),
      rows.get? n = some r → rows.get? n = some r' →
      classifyRow cycle year r = Except.ok o → classifyRow cycle year r' = Except.ok o' →
      o' = o := by
    intro n r r' o o' hj hj' ho ho'
    have hr : r' = r := Option.some.inj (hj'.symm.trans hj)
    subst hr
    exact Except.ok.inj (ho'.symm.trans ho)
  refine ⟨?_, ?_, ?_, ?_, ?_, ?_, ?_, ?_, ?_⟩
  · rw [e1, show (⟨[], [], [], [], []⟩ : RPResult).eligible = [] from rfl, List.nil_append]
    exact selIdx_nodup cycle year isEligOutcome rows 0
  · rw [e2, show (⟨[], [], [], [], []⟩ : RPResult).btz = [] from rfl, List.nil_append]
    exact selIdx_nodup cycle year isBtzOutcome rows 0
  · rw [e3, show (⟨[], [], [], [], []⟩ : RPResult).ineligible = [] from rfl, List.nil_append]
    exact selIdx_nodup cycle year isInelOutcome rows 0
  · rw [e4, show (⟨[], [], [], [], []⟩ : RPResult).discrepancy = [] from rfl, List.nil_append]
    exact selIdx_nodup cycle year isDiscOutcome rows 0
  · rintro n ⟨ha, hb⟩
    obtain ⟨r, o, hj, ho, hp⟩ := (m1 n).mp ha
    obtain ⟨r', o', hj', ho', hp'⟩ := (m2 n).mp hb
    rw [hagree n r r' o o' hj hj' ho ho'] at hp'
    cases o <;> simp [isEligOutcome, isBtzOutcome] at hp hp'
  · rintro n ⟨ha, hb⟩
    obtain ⟨r, o, hj, ho, hp⟩ := (m1 n).mp ha
    obtain ⟨r', o', hj', ho', hp'⟩ := (m3 n).mp hb
    rw [hagree n r r' o o' hj hj' ho ho'] at hp'
    cases o <;> simp [isEligOutcome, isInelOutcome] at hp hp'
  · rintro n ⟨ha, hb⟩
    obtain ⟨r, o, hj, ho, hp⟩ := (m2 n).mp ha
    obtain ⟨r', o', hj', ho', hp'⟩ := (m3 n).mp hb
    rw [hagree n r r' o o' hj hj' ho ho'] at hp'
    cases o <;> simp [isBtzOutcome, isInelOutcome] at hp hp'
  · intro n hd
    obtain ⟨r, o, hj, ho, hp⟩ := (m4 n).mp hd
    refine (m1 n).mpr ⟨r, o, hj, ho, ?_⟩
    cases o <;> simp [isDiscOutcome, isEligOutcome] at hp ⊢
  · intro n hd
    have hex : ∃ (r : Row) (o : RowOutcome) (s : String),
        rows.get? n = some r ∧ classifyRow cycle year r = Except.ok o ∧
          reasonOf o = some s := by
      rcases hd with hd | hd
      · obtain ⟨r, o, hj, ho, hp⟩ := (m3 n).mp hd
        cases o <;> simp [isInelOutcome] at hp
        exact ⟨r, _, _, hj, ho, rfl⟩
      · obtain ⟨r, o, hj, ho, hp⟩ := (m4 n).mp hd
        cases o <;> simp [isDiscOutcome] at hp
        exact ⟨r, _, _, hj, ho, rfl⟩
    obtain ⟨r, o, s, hj, ho, hs⟩ := hex
    refine ⟨s, (m5 n s).mpr ⟨r, o, hj, ho, hs⟩, ?_⟩
    intro s' hs'
    obtain ⟨r', o', hj', ho', hr'⟩ := (m5 n s').mp hs'
    rw [hagree n r r' o o' hj hj' ho ho'] at hr'
    exact (Option.some.inj (hs.symm.trans hr')).symm

unseal Rat.mul Rat.sub in
/-- C10 witness: a two-row roster (one fully eligible SSG member, one
with a missing TAFMSD) satisfies every partition invariant. -/
theorem claim_c10_witness :
    ([0] : List Nat).Nodup ∧ ([] : List Nat).Nodup ∧ ([1] : List Nat).Nodup ∧
    ([] : List Nat).Nodup ∧
    (∀ n, ¬(n ∈ ([0] : List Nat) ∧ n ∈ ([] : List Nat))) ∧
    (∀ n, ¬(n ∈ ([0] : List Nat) ∧ n ∈ ([1] : List Nat))) ∧
    (∀ n, ¬(n ∈ ([] : List Nat) ∧ n ∈ ([1] : List Nat))) ∧
    (∀ n, n ∈ ([] : List Nat) → n ∈ ([0] : List Nat)) ∧
    (∀ n, (n ∈ ([1] : List Nat) ∨ n ∈ ([] : List Nat)) →
      ∃! s, (n, s) ∈ [((1 : Nat), "Missing required data")]) :=
  claim_c10_partition_invariants [sampleRow, { sampleRow with tafmsd := none }] "SSG" 2025
    ⟨[0], [], [1], [], [(1, "Missing required data")]⟩ rfl

/-- An enlisted rank is never an officer rank. -/
theorem enlisted_not_officer (g : String) (h : ENLISTED_RANKS.contains g = true) :
    OFFICER_RANKS.contains g = false := by
  have hmem : g = "AB" ∨ g = "AMN" ∨ g = "A1C" ∨ g = "SRA" ∨ g = "SSG" ∨ g = "TSG" ∨
      g = "MSG" ∨ g = "SMS" ∨ g = "CMS" := by
    simpa [ENLISTED_RANKS] using h
  rcases hmem with rfl | rfl | rfl | rfl | rfl | rfl | rfl | rfl | rfl <;> rfl

/-- A row admitted to the cycle that passes the accounting gate but has
no TAFMSD is classified ineligible by the required-data check, with the
fixed reason of that check. -/
theorem classifyRow_missing_tafmsd (cycle : String) (year : Nat) (r : Row) (g : String)
    (hg : r.grade = some g)
    (hgE : ENLISTED_RANKS.contains g = true)
    (hnp : optEqStrict r.grade_perm_proj (PROMOTIONAL_MAP cycle) = false)
    (hmc : ((g == cycle || (g == "A1C" && cycle == "SRA")) ||
      optEqStrict r.grade_perm_proj (some cycle)) = true)
    (hacct : accounting_date_check r.date_arrived_station cycle year = Except.ok true)
    (htaf : r.tafmsd = none) :
    classifyRow cycle year r = Except.ok (RowOutcome.ineligibleR "Missing required data") := by
  have hO : g ∉ OFFICER_RANKS := by simpa using enlisted_not_officer g hgE
  have hgE2 : g ∈ ENLISTED_RANKS := by simpa using hgE
  have hmr : missingRequired r = true := by
    simp [missingRequired, htaf]
  unfold classifyRow
  simp [hg, hO, hgE2, hnp, hmc, hacct, hmr]

/-- C7 (amended): in every roster, a member admitted to the cycle that
passes the accounting-date gate but is missing TAFMSD is bucketed
ineligible with reason "Missing required data" (the required-data
check's fixed reason, not the rules engine's
"Required date missing or unreadable"), and every member of the roster
is bucketed exactly as its own classification prescribes. -/
theorem claim_c7_missing_tafmsd (rows : List Row) (cycle : String) (year : Nat)
    (res : RPResult) (i : Nat) (r : Row) (g : String)
    (hproc : roster_processor rows cycle year = Except.ok res)
    (hrow : rows.get? i = some r)
    (hg : r.grade = some g)
    (hgE : ENLISTED_RANKS.contains g = true)
    (hnp : optEqStrict r.grade_perm_proj (PROMOTIONAL_MAP cycle) = false)
    (hmc : ((g == cycle || (g == "A1C" && cycle == "SRA")) ||
      optEqStrict r.grade_perm_proj (some cycle)) = true)
    (hacct : accounting_date_check r.date_arrived_station cycle year = Except.ok true)
    (htaf : r.tafmsd = none) :
    classifyRow cycle year r = Except.ok (RowOutcome.ineligibleR "Missing required data") ∧
    i ∈ res.ineligible ∧ (i, "Missing required data") ∈ res.reasons ∧
    (∀ j rj oj, rows.get? j = some rj → classifyRow cycle year rj = Except.ok oj →
      bucketsMatch j oj res) := by
  have hcls := classifyRow_missing_tafmsd cycle year r g hg hgE hnp hmc hacct htaf
  obtain ⟨m1, m2, m3, m4, m5⟩ := roster_processor_mem rows cycle year res hproc
  exact ⟨hcls, (m3 i).mpr ⟨r, _, hrow, hcls, rfl⟩, (m5 i _).mpr ⟨r, _, hrow, hcls, rfl⟩,
    roster_processor_bucketsMatch rows cycle year res hproc⟩

/-- C7 counterexample: a roster whose only member is admitted to the
SSG cycle, passes the accounting-date gate and is missing TAFMSD.  The
member is bucketed ineligible, but the recorded reason is the
required-data check's "Missing required data", not the
"required date missing or unreadable" reason the claim states. -/
theorem claim_c7_counterexample :
    ENLISTED_RANKS.contains "SSG" = true ∧
    accounting_date_check ({ sampleRow with tafmsd := none } : Row).date_arrived_station
      "SSG" 2025 = Except.ok true ∧
    ({ sampleRow with tafmsd := none } : Row).tafmsd = none ∧
    roster_processor [{ sampleRow with tafmsd := none }] "SSG" 2025 =
      Except.ok ⟨[], [], [0], [], [(0, "Missing required data")]⟩ ∧
    "Missing required data" ≠ "required date missing or unreadable" := by
  refine ⟨rfl, rfl, rfl, rfl, ?_⟩
  decide

unseal Rat.mul Rat.sub in
/-- C7 witness: a two-row roster whose first member is missing TAFMSD
and whose second member is fully eligible; the first is bucketed
ineligible with "Missing required data" and both rows are bucketed per
their own classification. -/
theorem claim_c7_witness :
    classifyRow "SSG" 2025 { sampleRow with tafmsd := none } =
      Except.ok (RowOutcome.ineligibleR "Missing required data") ∧
    0 ∈ (⟨[1], [], [0], [], [(0, "Missing required data")]⟩ : RPResult).ineligible ∧
    ((0 : Nat), "Missing required data") ∈
      (⟨[1], [], [0], [], [(0, "Missing required data")]⟩ : RPResult).reasons ∧
    (∀ j rj oj, ([{ sampleRow with tafmsd := none }, sampleRow] : List Row).get? j = some rj →
      classifyRow "SSG" 2025 rj = Except.ok oj →
      bucketsMatch j oj ⟨[1], [], [0], [], [(0, "Missing required data")]⟩) :=
  claim_c7_missing_tafmsd [{ sampleRow with tafmsd := none }, sampleRow] "SSG" 2025
    ⟨[1], [], [0], [], [(0, "Missing required data")]⟩ 0 { sampleRow with tafmsd := none }
    "SSG" rfl rfl rfl rfl rfl rfl rfl rfl
